import Mathlib

/-!
Verification development for the widget code-generation engine of the
`simple_flutter_builder` repository (files `generator/widget_generator.py`
and `generator/property_handlers.py`).

The Python code is shallowly embedded: JSON-like runtime values become the
inductive type `Value`, the Django-backed schema rows become Lean
structures, and every function of the generator that the claims touch is
translated into an executable Lean definition.  Python exceptions are
modelled with `Except PyErr`.  Python floats never occur in any input these
claims require, so `Value` has no float constructor.

`htmlUnescape` models Python's `html.unescape` restricted to the entities
exercised by this development (`&amp;` `&lt;` `&gt;` `&quot;` and decimal
character references `&#NNN;`); on strings containing none of the other
named entities it agrees with Python.  `htmlEscape` models Django's
template auto-escaping (`&` `<` `>` `"` `'`), which is active when
`django.template.Template.render` is called in `_render_template`.
-/

set_option maxRecDepth 40000

namespace SFB

/-- Runtime JSON-like values manipulated by the generator. -/
inductive Value where
  | null
  | bool (b : Bool)
  | int (n : Int)
  | str (s : String)
  | list (xs : List Value)
  | dict (kvs : List (String × Value))

/-- ASCII model of the regex word character class `\w` used by
`re.sub(r'\bNone\b', ...)` and the dict-literal patterns. -/
def isWordChar (c : Char) : Bool :=
  c.isAlpha || c.isDigit || c == '_'

/-- Python `str.lower()` restricted to ASCII. -/
def pyLower (s : String) : String :=
  String.mk (s.data.map Char.toLower)

/-- Python `str.islower()` restricted to ASCII: at least one cased
character and every cased character lowercase. -/
def pyIsLower (s : String) : Bool :=
  s.data.any (fun c => c.isAlpha) && s.data.all (fun c => !c.isAlpha || c.isLower)

/-- Python `str.strip()` character class (whitespace). -/
def pyIsSpace (c : Char) : Bool :=
  c == ' ' || c == '\t' || c == '\n' || c == '\r' || c == (Char.ofNat 11) || c == (Char.ofNat 12)

/-- Python `str.strip()`. -/
def pyStrip (s : String) : String :=
  String.mk ((s.data.dropWhile pyIsSpace).reverse.dropWhile pyIsSpace |>.reverse)

/-- Substring containment, Python's `sub in s` on strings. -/
def listIsInfix (pat cs : List Char) : Bool :=
  if pat.isPrefixOf cs then true
  else match cs with
    | [] => pat.isEmpty
    | _ :: rest => listIsInfix pat rest

def pyInStr (sub s : String) : Bool :=
  listIsInfix sub.data s.data

/-- Python `str.startswith` / `str.endswith` on the character lists. -/
def pyStartsWith (s pre : String) : Bool :=
  pre.data.isPrefixOf s.data

def pyEndsWith (s suf : String) : Bool :=
  suf.data.isSuffixOf s.data

/-- Python `str.replace(old, new)` (leftmost, non-overlapping); the fuel
is the list length, consumed one character per step. -/
def listReplace (old new : List Char) : Nat → List Char → List Char
  | 0, cs => cs
  | _ + 1, [] => []
  | fuel + 1, c :: rest =>
    if old ≠ [] ∧ old.isPrefixOf (c :: rest) then
      new ++ listReplace old new fuel ((c :: rest).drop old.length)
    else
      c :: listReplace old new fuel rest

def pyReplace (s old new : String) : String :=
  String.mk (listReplace old.data new.data s.data.length s.data)

/-- Valid decimal character reference decoding for `htmlUnescape`; out of
the modelled range it yields the replacement character, as Python does for
ill-formed code points. -/
def charOfRef (n : Nat) : Char :=
  if n < 55296 then Char.ofNat n else Char.ofNat 65533

def hexDigit (c : Char) : Bool :=
  c.isDigit || ('a' ≤ c && c ≤ 'f') || ('A' ≤ c && c ≤ 'F')

def hexVal (c : Char) : Nat :=
  if c.isDigit then c.toNat - 48
  else if 'a' ≤ c && c ≤ 'f' then c.toNat - 87
  else c.toNat - 55

/-- One pass of Python `html.unescape`, restricted to the entities used in
this development; scans left to right and never rescans replacement text,
exactly as the `re.sub`-based CPython implementation does. -/
def unescapeAux : Nat → List Char → List Char
  | 0, cs => cs
  | _ + 1, [] => []
  | fuel + 1, c :: rest =>
    if c = '&' then
      if rest.take 4 = ['a', 'm', 'p', ';'] then
        '&' :: unescapeAux fuel (rest.drop 4)
      else if rest.take 3 = ['l', 't', ';'] then
        '<' :: unescapeAux fuel (rest.drop 3)
      else if rest.take 3 = ['g', 't', ';'] then
        '>' :: unescapeAux fuel (rest.drop 3)
      else if rest.take 5 = ['q', 'u', 'o', 't', ';'] then
        '"' :: unescapeAux fuel (rest.drop 5)
      else
        match rest with
        | '#' :: 'x' :: ds =>
          let digs := ds.takeWhile hexDigit
          if digs.isEmpty then
            c :: unescapeAux fuel rest
          else
            let value := digs.foldl (fun a d => a * 16 + hexVal d) 0
            let after := ds.drop digs.length
            let after := if after.head? = some ';' then after.drop 1 else after
            charOfRef value :: unescapeAux fuel after
        | '#' :: 'X' :: ds =>
          let digs := ds.takeWhile hexDigit
          if digs.isEmpty then
            c :: unescapeAux fuel rest
          else
            let value := digs.foldl (fun a d => a * 16 + hexVal d) 0
            let after := ds.drop digs.length
            let after := if after.head? = some ';' then after.drop 1 else after
            charOfRef value :: unescapeAux fuel after
        | '#' :: ds =>
          let digs := ds.takeWhile Char.isDigit
          if digs.isEmpty then
            c :: unescapeAux fuel rest
          else
            let value := digs.foldl (fun a d => a * 10 + (d.toNat - 48)) 0
            let after := ds.drop digs.length
            let after := if after.head? = some ';' then after.drop 1 else after
            charOfRef value :: unescapeAux fuel after
        | _ => c :: unescapeAux fuel rest
    else
      c :: unescapeAux fuel rest

def htmlUnescape (s : String) : String :=
  String.mk (unescapeAux s.data.length s.data)

/-- The repeated-decode idiom used throughout the generator:
`for _ in range(n): prev = x; x = html.unescape(x); if x == prev: break`. -/
def unescapeLoop : Nat → String → String
  | 0, s => s
  | n + 1, s =>
    let d := htmlUnescape s
    if d = s then d else unescapeLoop n d

/-- Django template auto-escaping of one character. -/
def htmlEscapeChar (c : Char) : List Char :=
  if c = '&' then "&amp;".data
  else if c = '<' then "&lt;".data
  else if c = '>' then "&gt;".data
  else if c = '"' then "&quot;".data
  else if c.toNat = 39 then "&#x27;".data
  else [c]

/-- Django's `conditional_escape`, applied by `{{ ... }}` interpolation in
`django.template.Template.render` (auto-escape is on for the default
engine). -/
def htmlEscape (s : String) : String :=
  String.mk (s.data.flatMap htmlEscapeChar)

mutual

/-- Python `repr` on the modelled values (string escaping inside `repr` is
not needed by any claim and is left as plain quoting). -/
def pyRepr : Value → String
  | .null => "None"
  | .bool true => "True"
  | .bool false => "False"
  | .int n => toString n
  | .str s => "'" ++ s ++ "'"
  | .list xs => "[" ++ pyReprList xs ++ "]"
  | .dict kvs => "\x7b" ++ pyReprDict kvs ++ "\x7d"

def pyReprList : List Value → String
  | [] => ""
  | [x] => pyRepr x
  | x :: y :: rest => pyRepr x ++ ", " ++ pyReprList (y :: rest)

def pyReprDict : List (String × Value) → String
  | [] => ""
  | [(k, v)] => "'" ++ k ++ "': " ++ pyRepr v
  | (k, v) :: p :: rest => "'" ++ k ++ "': " ++ pyRepr v ++ ", " ++ pyReprDict (p :: rest)

end

/-- Python `str()`, as used by f-string interpolation. -/
def pyStr : Value → String
  | .null => "None"
  | .bool true => "True"
  | .bool false => "False"
  | .int n => toString n
  | .str s => s
  | .list xs => pyRepr (.list xs)
  | .dict kvs => pyRepr (.dict kvs)

/-- Python truthiness. -/
def pyTruthy : Value → Bool
  | .null => false
  | .bool b => b
  | .int n => n != 0
  | .str s => s != ""
  | .list xs => !xs.isEmpty
  | .dict kvs => !kvs.isEmpty

/-- First binding for a key in an association list (model dictionaries
carry distinct keys, as Python dicts do). -/
def lookupVal (kvs : List (String × Value)) (k : String) : Option Value :=
  match kvs.find? (fun p => p.1 == k) with
  | some p => some p.2
  | none => none

/-- Python `d.get(k, default)`. -/
def pyGetD (kvs : List (String × Value)) (k : String) (d : Value) : Value :=
  match lookupVal kvs k with
  | some v => v
  | none => d

mutual

/-- Structural size of a value, used to seed the equality fuel. -/
def sizeOfV : Value → Nat
  | .null => 1
  | .bool _ => 1
  | .int _ => 1
  | .str _ => 1
  | .list xs => 1 + sizeOfVList xs
  | .dict kvs => 1 + sizeOfVDict kvs

def sizeOfVList : List Value → Nat
  | [] => 0
  | x :: xs => 1 + sizeOfV x + sizeOfVList xs

def sizeOfVDict : List (String × Value) → Nat
  | [] => 0
  | (_, v) :: xs => 1 + sizeOfV v + sizeOfVDict xs

end

mutual

/-- Python `==` on the modelled values (`True == 1`, `False == 0`;
dictionaries compare by key lookup).  The fuel dominates the nesting
depth; `pyEq` seeds it with the structural sizes, so it never runs out. -/
def pyEqF : Nat → Value → Value → Bool
  | 0, _, _ => false
  | fuel + 1, a, b =>
    match a, b with
    | .null, .null => true
    | .bool x, .bool y => x == y
    | .bool x, .int n => n == (if x then (1 : Int) else 0)
    | .int n, .bool x => n == (if x then (1 : Int) else 0)
    | .int x, .int y => x == y
    | .str x, .str y => x == y
    | .list xs, .list ys => pyEqListF fuel xs ys
    | .dict xs, .dict ys => pyEqDictAllF fuel xs ys && pyEqDictAllF fuel ys xs
    | _, _ => false

def pyEqListF : Nat → List Value → List Value → Bool
  | 0, _, _ => false
  | fuel + 1, xs, ys =>
    match xs, ys with
    | [], [] => true
    | x :: xs', y :: ys' => pyEqF fuel x y && pyEqListF fuel xs' ys'
    | _, _ => false

def pyEqDictAllF : Nat → List (String × Value) → List (String × Value) → Bool
  | 0, _, _ => false
  | fuel + 1, xs, other =>
    match xs with
    | [] => true
    | (k, v) :: rest =>
      (match other.find? (fun q => q.1 == k) with
       | some q => pyEqF fuel v q.2
       | none => false) &&
      pyEqDictAllF fuel rest other

end

def pyEq (a b : Value) : Bool :=
  pyEqF (sizeOfV a + sizeOfV b) a b

/-- Insert-or-update for dictionary rebuilding: an existing key keeps its
position and gets the new value, matching Python dict comprehension
semantics. -/
def upsert : List (String × Value) → String → Value → List (String × Value)
  | [], k, v => [(k, v)]
  | (k', v') :: rest, k, v =>
    if k' == k then (k', v) :: rest else (k', v') :: upsert rest k v

mutual

/-- `DynamicWidgetGenerator._decode_html_deeply`: recursively decodes HTML
entities (up to five passes per string) in strings, dict keys and values,
and list items. -/
def decodeHtmlDeeply : Value → Value
  | .str s => .str (unescapeLoop 5 s)
  | .list xs => .list (decodeHtmlList xs)
  | .dict kvs => .dict (decodeHtmlDict kvs [])
  | v => v

def decodeHtmlList : List Value → List Value
  | [] => []
  | x :: xs => decodeHtmlDeeply x :: decodeHtmlList xs

def decodeHtmlDict : List (String × Value) → List (String × Value) → List (String × Value)
  | [], acc => acc
  | (k, v) :: rest, acc =>
    decodeHtmlDict rest (upsert acc (unescapeLoop 5 k) (decodeHtmlDeeply v))

end

/-- Python `str.split(sep)` for a one-character separator. -/
def splitOn1 (sep : Char) : List Char → List (List Char)
  | [] => [[]]
  | c :: rest =>
    let r := splitOn1 sep rest
    if c = sep then [] :: r
    else match r with
      | [] => [[c]]
      | p :: ps => (c :: p) :: ps

def pySplit (s : String) (sep : String) : List String :=
  match sep.data with
  | [c] => (splitOn1 c s.data).map String.mk
  | _ => [s]

/-- Python `", ".join(parts)`. -/
def joinSep (sep : String) : List String → String
  | [] => ""
  | [x] => x
  | x :: y :: rest => x ++ sep ++ joinSep sep (y :: rest)

/-- Errors raised by the embedded Python code. -/
inductive PyErr where
  | attributeError
  | typeError
  | indexError
  | recursionLimit
deriving Repr, DecidableEq

/-- `StringPropertyHandler.transform`: the source returns `"{}"` for
`None`, and for every other input falls off the end of the function (the
dict branch computes a key and discards it), returning Python `None`,
modelled as `Option.none`. -/
def stringTransform : Value → Option String
  | .null => some "\x7b\x7d"
  | _ => none

/-- `StringPropertyHandler.validate`. -/
def stringValidate : Value → Bool
  | .str _ => true
  | .null => true
  | _ => false

/-- `NumberPropertyHandler.transform` (`is_double` selects the `.0`
suffix for values whose `str()` has no dot). -/
def numberTransform (isDouble : Bool) (v : Value) : String :=
  match v with
  | .null => "null"
  | _ =>
    if isDouble && !pyInStr "." (pyStr v) then pyStr v ++ ".0"
    else pyStr v

/-- `NumberPropertyHandler.validate` (`isinstance(value, (int, float,
NoneType))`; Python bools are ints). -/
def numberValidate : Value → Bool
  | .int _ => true
  | .bool _ => true
  | .null => true
  | _ => false

/-- `BoolPropertyHandler.transform`. -/
def boolTransform : Value → String
  | .null => "null"
  | v => if pyTruthy v then "true" else "false"

/-- `BoolPropertyHandler.validate`. -/
def boolValidate : Value → Bool
  | .bool _ => true
  | .null => true
  | _ => false

/-- `ColorPropertyHandler.COLOR_MAP`. -/
def colorMap : List (String × String) :=
  [("red", "Colors.red"), ("pink", "Colors.pink"), ("purple", "Colors.purple"),
   ("deeppurple", "Colors.deepPurple"), ("indigo", "Colors.indigo"),
   ("blue", "Colors.blue"), ("lightblue", "Colors.lightBlue"),
   ("cyan", "Colors.cyan"), ("teal", "Colors.teal"), ("green", "Colors.green"),
   ("lightgreen", "Colors.lightGreen"), ("lime", "Colors.lime"),
   ("yellow", "Colors.yellow"), ("amber", "Colors.amber"),
   ("orange", "Colors.orange"), ("deeporange", "Colors.deepOrange"),
   ("brown", "Colors.brown"), ("grey", "Colors.grey"), ("gray", "Colors.grey"),
   ("bluegrey", "Colors.blueGrey"), ("black", "Colors.black"),
   ("white", "Colors.white"), ("transparent", "Colors.transparent")]

/-- The `value.lower().replace('_', '').replace('-', '').replace(' ', '')`
normalisation used for colour and alignment names. -/
def normalizeName (s : String) : String :=
  pyReplace (pyReplace (pyReplace (pyLower s) "_" "") "-" "") " " ""

/-- `ColorPropertyHandler.transform`. -/
def colorTransform (v : Value) : String :=
  match v with
  | .null => "null"
  | .str s =>
    if pyStartsWith s "Colors." then s
    else
      match colorMap.find? (fun p => p.1 == normalizeName s) with
      | some p => p.2
      | none =>
        if pyStartsWith s "#" then "Color(" ++ pyReplace s "#" "0xFF" ++ ")"
        else if pyStartsWith s "0x" then "Color(" ++ s ++ ")"
        else "Colors.grey"
  | .dict kvs =>
    if (lookupVal kvs "r").isSome && (lookupVal kvs "g").isSome &&
        (lookupVal kvs "b").isSome then
      let r := pyStr (pyGetD kvs "r" .null)
      let g := pyStr (pyGetD kvs "g" .null)
      let b := pyStr (pyGetD kvs "b" .null)
      let a := pyStr (pyGetD kvs "a" (.int 255))
      "Color.fromARGB(" ++ a ++ ", " ++ r ++ ", " ++ g ++ ", " ++ b ++ ")"
    else if (lookupVal kvs "red").isSome then
      let r := pyStr (pyGetD kvs "red" (.int 0))
      let g := pyStr (pyGetD kvs "green" (.int 0))
      let b := pyStr (pyGetD kvs "blue" (.int 0))
      let a := pyStr (pyGetD kvs "alpha" (.int 255))
      "Color.fromARGB(" ++ a ++ ", " ++ r ++ ", " ++ g ++ ", " ++ b ++ ")"
    else "Colors.grey"
  | _ => "Colors.grey"

/-- `ColorPropertyHandler.validate`. -/
def colorValidate : Value → Bool
  | .null => true
  | .str _ => true
  | .dict kvs => (lookupVal kvs "r").isSome || (lookupVal kvs "red").isSome
  | _ => false

/-- `EnumPropertyHandler.common_enums`. -/
def commonEnums (cls : String) : Option (List String) :=
  if cls == "MainAxisAlignment" then
    some ["start", "end", "center", "spaceBetween", "spaceAround", "spaceEvenly"]
  else if cls == "CrossAxisAlignment" then
    some ["start", "end", "center", "stretch", "baseline"]
  else if cls == "TextAlign" then
    some ["left", "right", "center", "justify", "start", "end"]
  else if cls == "BoxFit" then
    some ["fill", "contain", "cover", "fitWidth", "fitHeight", "none", "scaleDown"]
  else if cls == "Alignment" then
    some ["topLeft", "topCenter", "topRight", "centerLeft", "center", "centerRight",
          "bottomLeft", "bottomCenter", "bottomRight"]
  else none

/-- `EnumPropertyHandler.__init__`: `allowed_values or []`, then the
common-enum table when that leaves the allowed list empty. -/
def enumEffectiveAllowed (cls : String) (allowed : List String) : List String :=
  if allowed.isEmpty then
    match commonEnums cls with
    | some xs => xs
    | none => []
  else allowed

/-- Qualification step of `EnumPropertyHandler.transform` on the computed
`value_str`: exact membership, then case-insensitive search, then the raw
name verbatim. -/
def enumQualify (cls : String) (allowed : List String) (vs : String) : String :=
  if !allowed.isEmpty then
    if allowed.contains vs then cls ++ "." ++ vs
    else
      match allowed.find? (fun a => pyLower a == pyLower vs) with
      | some a => cls ++ "." ++ a
      | none => cls ++ "." ++ vs
  else cls ++ "." ++ vs

/-- `EnumPropertyHandler.transform` for a handler whose constructor
received `cls` and (post-`__init__`) allowed list `allowed`. -/
def enumTransform (cls : String) (allowed : List String) : Value → String
  | .null => "null"
  | .str s => if pyInStr "." s then s else enumQualify cls allowed s
  | v => enumQualify cls allowed (pyStr v)

/-- `EnumPropertyHandler.validate` (always true). -/
def enumValidate : Value → Bool := fun _ => true

/-- `WidgetPropertyHandler.validate`. -/
def widgetValidate : Value → Bool
  | .dict _ => true
  | .str _ => true
  | .null => true
  | _ => false

/-- Fallthrough tail of `EdgeInsetsPropertyHandler.transform`: the
int/str/final-dict checks after the first dict block. -/
def edgeInsetsTail (v : Value) : String :=
  match v with
  | .bool _ => "EdgeInsets.all(" ++ pyStr v ++ ".0)"
  | .int _ => "EdgeInsets.all(" ++ pyStr v ++ ".0)"
  | .str s =>
    if pyInStr "," s then
      let parts := pySplit s ","
      if parts.length == 4 then
        "EdgeInsets.fromLTRB(" ++ parts.getD 0 "" ++ ".0, " ++ parts.getD 1 "" ++
          ".0, " ++ parts.getD 2 "" ++ ".0, " ++ parts.getD 3 "" ++ ".0)"
      else "EdgeInsets.zero"
    else
      match pyFloatishRepr s with
      | some r => "EdgeInsets.all(" ++ r ++ ".0)"
      | none => "EdgeInsets.zero"
  | .dict kvs =>
    if (lookupVal kvs "all").isSome then
      "EdgeInsets.all(" ++ pyStr (pyGetD kvs "all" .null) ++ ".0)"
    else "EdgeInsets.zero"
  | _ => "EdgeInsets.zero"
where
  /-- Model of `float(value)` followed by f-string interpolation, for plain
  unsigned digit strings only; other spellings are treated as unparsable
  (the surrounding code then falls back to `EdgeInsets.zero`).  No claim
  exercises this sub-branch. -/
  pyFloatishRepr (s : String) : Option String :=
    if s ≠ "" && s.data.all Char.isDigit then
      some (toString (s.toNat!) ++ ".0")
    else none

/-- `EdgeInsetsPropertyHandler.transform`. -/
def edgeInsetsTransform (v0 : Value) : String :=
  match v0 with
  | .null => "null"
  | .str s => edgeInsetsTail (.str (unescapeLoop 5 s))
  | .dict kvs =>
    let clean := kvs.foldl (fun acc p => upsert acc (unescapeLoop 5 p.1) p.2) []
    if (lookupVal clean "all").isSome then
      "EdgeInsets.all(" ++ pyStr (pyGetD clean "all" .null) ++ ".0)"
    else
      match lookupVal kvs "symmetric" with
      | some (.dict sym) =>
        "EdgeInsets.symmetric(horizontal: " ++ pyStr (pyGetD sym "horizontal" (.int 0)) ++
          ".0, vertical: " ++ pyStr (pyGetD sym "vertical" (.int 0)) ++ ".0)"
      | some _ =>
        -- a non-dict `symmetric` falls through the whole elif chain to the
        -- final dict check at the bottom of the function
        if (lookupVal kvs "all").isSome then
          "EdgeInsets.all(" ++ pyStr (pyGetD kvs "all" .null) ++ ".0)"
        else "EdgeInsets.zero"
      | none =>
        if (lookupVal kvs "horizontal").isSome || (lookupVal kvs "vertical").isSome then
          "EdgeInsets.symmetric(horizontal: " ++ pyStr (pyGetD kvs "horizontal" (.int 0)) ++
            ".0, vertical: " ++ pyStr (pyGetD kvs "vertical" (.int 0)) ++ ".0)"
        else
          "EdgeInsets.fromLTRB(" ++ pyStr (pyGetD kvs "left" (.int 0)) ++ ".0, " ++
            pyStr (pyGetD kvs "top" (.int 0)) ++ ".0, " ++
            pyStr (pyGetD kvs "right" (.int 0)) ++ ".0, " ++
            pyStr (pyGetD kvs "bottom" (.int 0)) ++ ".0)"
  | v => edgeInsetsTail v

/-- `AlignmentPropertyHandler.ALIGNMENT_MAP`. -/
def alignmentMap : List (String × String) :=
  [("topleft", "Alignment.topLeft"), ("topcenter", "Alignment.topCenter"),
   ("topright", "Alignment.topRight"), ("centerleft", "Alignment.centerLeft"),
   ("center", "Alignment.center"), ("centerright", "Alignment.centerRight"),
   ("bottomleft", "Alignment.bottomLeft"), ("bottomcenter", "Alignment.bottomCenter"),
   ("bottomright", "Alignment.bottomRight")]

/-- `AlignmentPropertyHandler.transform`. -/
def alignmentTransform : Value → String
  | .null => "null"
  | .str s =>
    if pyStartsWith s "Alignment." then s
    else
      match alignmentMap.find? (fun p => p.1 == normalizeName s) with
      | some p => p.2
      | none => "Alignment.center"
  | .dict kvs =>
    "Alignment(" ++ pyStr (pyGetD kvs "x" (.int 0)) ++ ", " ++
      pyStr (pyGetD kvs "y" (.int 0)) ++ ")"
  | _ => "Alignment.center"

/-- `TextStylePropertyHandler.transform`; a non-string `fontWeight` or
`fontStyle` raises `AttributeError` on `.startswith`, as in Python. -/
def textStyleTransform : Value → Except PyErr String
  | .null => .ok "null"
  | .dict kvs => do
    let a := match lookupVal kvs "fontSize" with
      | some v => ["fontSize: " ++ pyStr v ++ ".0"]
      | none => []
    let b ← match lookupVal kvs "fontWeight" with
      | some (.str w) =>
        .ok ["fontWeight: " ++ (if pyStartsWith w "FontWeight." then w else "FontWeight." ++ w)]
      | some _ => .error .attributeError
      | none => .ok []
    let c ← match lookupVal kvs "fontStyle" with
      | some (.str w) =>
        .ok ["fontStyle: " ++ (if pyStartsWith w "FontStyle." then w else "FontStyle." ++ w)]
      | some _ => .error .attributeError
      | none => .ok []
    let d := match lookupVal kvs "color" with
      | some v => ["color: " ++ colorTransform v]
      | none => []
    let e := match lookupVal kvs "letterSpacing" with
      | some v => ["letterSpacing: " ++ pyStr v ++ ".0"]
      | none => []
    let f := match lookupVal kvs "wordSpacing" with
      | some v => ["wordSpacing: " ++ pyStr v ++ ".0"]
      | none => []
    let g := match lookupVal kvs "height" with
      | some v => ["height: " ++ pyStr v ++ ".0"]
      | none => []
    let props := a ++ b ++ c ++ d ++ e ++ f ++ g
    if props.isEmpty then .ok "TextStyle()"
    else .ok ("TextStyle(" ++ joinSep ", " props ++ ")")
  | _ => .ok "TextStyle()"

/-- `TextStylePropertyHandler.validate`. -/
def textStyleValidate : Value → Bool
  | .null => true
  | .dict _ => true
  | _ => false

/-- `DurationPropertyHandler.transform`. -/
def durationTransform : Value → String
  | .null => "null"
  | .dict kvs =>
    match lookupVal kvs "milliseconds" with
    | some v => "Duration(milliseconds: " ++ pyStr v ++ ")"
    | none =>
      match lookupVal kvs "seconds" with
      | some v => "Duration(seconds: " ++ pyStr v ++ ")"
      | none =>
        match lookupVal kvs "minutes" with
        | some v => "Duration(minutes: " ++ pyStr v ++ ")"
        | none => "Duration(seconds: 1)"
  | .int n => "Duration(milliseconds: " ++ toString n ++ ")"
  | .bool b => "Duration(milliseconds: " ++ (if b then "1" else "0") ++ ")"
  | _ => "Duration(seconds: 1)"

/-- One `'key': value` item of `MapPropertyHandler.transform` (string
values quoted, booleans and numbers printed, anything else `null`). -/
def mapItem (p : String × Value) : String :=
  let key := "'" ++ p.1 ++ "'"
  let val :=
    match p.2 with
    | .str s => "'" ++ s ++ "'"
    | .bool b => if b then "true" else "false"
    | .int n => toString n
    | _ => "null"
  key ++ ": " ++ val

/-- `MapPropertyHandler.transform`. -/
def mapTransform : Value → String
  | .null => "\x7b\x7d"
  | .dict kvs => "\x7b" ++ joinSep ", " (kvs.map mapItem) ++ "\x7d"
  | _ => "\x7b\x7d"

/-- `MapPropertyHandler.validate`. -/
def mapValidate : Value → Bool
  | .null => true
  | .dict _ => true
  | _ => false

/-- `CustomPropertyHandler.transform`. -/
def customTransform : Value → String
  | .null => "null"
  | .str s =>
    let d := unescapeLoop 3 s
    if pyStartsWith (pyStrip d) "()" then d
    else if pyStartsWith (pyStrip d) "(" && pyInStr "=>" d then d
    else if d == "() \x7b\x7d" || pyStrip d == "()\x7b\x7d" then "() \x7b\x7d"
    else d
  | v => pyStr v

def lbrace : Char := Char.ofNat 123

def rbrace : Char := Char.ofNat 125

def squote : Char := Char.ofNat 39

def isQuoteCh (c : Char) : Bool := c == squote || c == '"'

/-- Word-boundary test used by `\b`: the neighbouring character (if any)
is not a word character. -/
def boundaryOk : Option Char → Bool
  | some c => !isWordChar c
  | none => true

/-- A `\bNone\b` match at the current position: the next four characters
are `None` and both boundaries hold (`prev` is the character preceding
the position in the original text). -/
def noneAt (prev : Option Char) (cs : List Char) : Bool :=
  decide (cs.take 4 = ['N', 'o', 'n', 'e']) && boundaryOk prev &&
    boundaryOk (cs.drop 4).head?

/-- `re.sub(r'\bNone\b', 'null', ...)`: leftmost non-overlapping scan;
the fuel is the text length, consumed at least one character per step. -/
def subNoneAux : Nat → Option Char → List Char → List Char
  | 0, _, cs => cs
  | _ + 1, _, [] => []
  | fuel + 1, prev, c :: rest =>
    if noneAt prev (c :: rest) then
      'n' :: 'u' :: 'l' :: 'l' :: subNoneAux fuel (some 'e') ((c :: rest).drop 4)
    else c :: subNoneAux fuel (some c) rest

def subNoneWord (s : String) : String :=
  String.mk (subNoneAux s.data.length none s.data)

/-- `re.search(r'\bNone\b', ...) is not None`: the cleaned text is
scanned with the same match predicate as the substitution. -/
def hasNoneAux (prev : Option Char) (cs : List Char) : Bool :=
  match cs with
  | [] => false
  | c :: rest =>
    if noneAt prev (c :: rest) then true
    else hasNoneAux (some c) rest

def hasNoneWord (s : String) : Bool :=
  hasNoneAux none s.data

/-- `re.sub(r'\bbadges\.', '', ...)`. -/
def subBadgesAux : Option Char → List Char → List Char
  | _, [] => []
  | prev, 'b' :: 'a' :: 'd' :: 'g' :: 'e' :: 's' :: '.' :: rest =>
    if boundaryOk prev then subBadgesAux (some '.') rest
    else 'b' :: subBadgesAux (some 'b') ('a' :: 'd' :: 'g' :: 'e' :: 's' :: '.' :: rest)
  | prev, c :: rest => c :: subBadgesAux (some c) rest

def subBadges (s : String) : String :=
  String.mk (subBadgesAux none s.data)

/-- `re.sub(r',\s*,', ',', ...)`. -/
def subDoubleCommaAux : Nat → List Char → List Char
  | 0, cs => cs
  | _ + 1, [] => []
  | fuel + 1, c :: rest =>
    if c = ',' then
      let sp := rest.takeWhile pyIsSpace
      match rest.drop sp.length with
      | c2 :: tail =>
        if c2 = ',' then ',' :: subDoubleCommaAux fuel tail
        else c :: subDoubleCommaAux fuel rest
      | [] => c :: subDoubleCommaAux fuel rest
    else c :: subDoubleCommaAux fuel rest

def subDoubleComma (s : String) : String :=
  String.mk (subDoubleCommaAux s.data.length s.data)

/-- `re.sub(r',\s*X', 'X', ...)` for a closing bracket `X` (`)` or `]`),
which drops the comma and the whitespace. -/
def subCommaDropAux : Nat → Char → List Char → List Char
  | 0, _, cs => cs
  | _ + 1, _, [] => []
  | fuel + 1, close, c :: rest =>
    if c = ',' then
      let sp := rest.takeWhile pyIsSpace
      match rest.drop sp.length with
      | c2 :: tail =>
        if c2 = close then close :: subCommaDropAux fuel close tail
        else c :: subCommaDropAux fuel close rest
      | [] => c :: subCommaDropAux fuel close rest
    else c :: subCommaDropAux fuel close rest

def subCommaParen (s : String) : String :=
  String.mk (subCommaDropAux s.data.length ')' s.data)

def subCommaBracket (s : String) : String :=
  String.mk (subCommaDropAux s.data.length ']' s.data)

/-- `re.sub(r',(\s*[}\)])', r'\1', ...)` used in `_render_template`:
drops the comma but keeps the whitespace and the bracket. -/
def subCommaKeepAux : Nat → List Char → List Char
  | 0, cs => cs
  | _ + 1, [] => []
  | fuel + 1, c :: rest =>
    if c = ',' then
      let sp := rest.takeWhile pyIsSpace
      match rest.drop sp.length with
      | c2 :: tail =>
        if c2 = rbrace || c2 = ')' then
          sp ++ (c2 :: subCommaKeepAux fuel tail)
        else c :: subCommaKeepAux fuel rest
      | [] => c :: subCommaKeepAux fuel rest
    else c :: subCommaKeepAux fuel rest

def subCommaKeep (s : String) : String :=
  String.mk (subCommaKeepAux s.data.length s.data)

/-- Index of the last occurrence of a character. -/
def lastIdxOf (c : Char) : List Char → Option Nat
  | [] => none
  | x :: rest =>
    match lastIdxOf c rest with
    | some j => some (j + 1)
    | none => if x == c then some 0 else none

/-- `re.sub(r'\n\s*\n', '\n', ...)`: the greedy `\s*` backtracks so the
match ends at the last newline of the whitespace run. -/
def subBlankAux : Nat → List Char → List Char
  | 0, cs => cs
  | _ + 1, [] => []
  | fuel + 1, c :: rest =>
    if c = '\n' then
      let sp := rest.takeWhile pyIsSpace
      match lastIdxOf '\n' sp with
      | some k => '\n' :: subBlankAux fuel (rest.drop (k + 1))
      | none => c :: subBlankAux fuel rest
    else c :: subBlankAux fuel rest

def subBlankLines (s : String) : String :=
  String.mk (subBlankAux s.data.length s.data)

/-- First closing brace in a character list. -/
def findClose (cs : List Char) : Option Nat :=
  cs.findIdx? (fun c => c == rbrace)

/-- Match of `\{['\"][\w]+['\"]\s*:\s*[^}]+\}` at an opening brace; input
is the text after the brace, result the matched length after it. -/
def matchDict1 (rest : List Char) : Option Nat :=
  match rest with
  | q :: r2 =>
    if isQuoteCh q then
      let ws := r2.takeWhile isWordChar
      if ws.isEmpty then none
      else
        match r2.drop ws.length with
        | q2 :: r4 =>
          if isQuoteCh q2 then
            let sp := r4.takeWhile pyIsSpace
            match r4.drop sp.length with
            | colon :: r6 =>
              if colon = ':' then
                match findClose r6 with
                | some j =>
                  if j ≥ 1 then some (1 + ws.length + 1 + sp.length + 1 + j + 1)
                  else none
                | none => none
              else none
            | [] => none
          else none
        | [] => none
    else none
  | [] => none

def subDict1Aux : Nat → List Char → List Char
  | 0, cs => cs
  | _ + 1, [] => []
  | fuel + 1, c :: rest =>
    if c = lbrace then
      match matchDict1 rest with
      | some len => 'n' :: 'u' :: 'l' :: 'l' :: subDict1Aux fuel (rest.drop len)
      | none => c :: subDict1Aux fuel rest
    else c :: subDict1Aux fuel rest

/-- `re.sub` with the dict-literal pattern
`r"\{['\"][\w]+['\"]\s*:\s*[^}]+\}"`, replacement `null`. -/
def subDictPattern1 (s : String) : String :=
  String.mk (subDict1Aux s.data.length s.data)

/-- Match of `\{['\"]?\w+['\"]?\s*:\s*null\}` at an opening brace. -/
def matchDict2 (rest : List Char) : Option Nat :=
  let (q1len, r2) :=
    match rest with
    | q :: r => if isQuoteCh q then (1, r) else (0, rest)
    | [] => (0, rest)
  let ws := r2.takeWhile isWordChar
  if ws.isEmpty then none
  else
    let r3 := r2.drop ws.length
    let (q2len, r4) :=
      match r3 with
      | q :: r => if isQuoteCh q then (1, r) else (0, r3)
      | [] => (0, r3)
    let sp1 := r4.takeWhile pyIsSpace
    match r4.drop sp1.length with
    | c :: r6 =>
      if c = ':' then
        let sp2 := r6.takeWhile pyIsSpace
        match r6.drop sp2.length with
        | 'n' :: 'u' :: 'l' :: 'l' :: r8 =>
          match r8 with
          | cb :: _ =>
            if cb = rbrace then
              some (q1len + ws.length + q2len + sp1.length + 1 + sp2.length + 4 + 1)
            else none
          | [] => none
        | _ => none
      else none
    | [] => none

def subDict2Aux : Nat → List Char → List Char
  | 0, cs => cs
  | _ + 1, [] => []
  | fuel + 1, c :: rest =>
    if c = lbrace then
      match matchDict2 rest with
      | some len => 'n' :: 'u' :: 'l' :: 'l' :: subDict2Aux fuel (rest.drop len)
      | none => c :: subDict2Aux fuel rest
    else c :: subDict2Aux fuel rest

/-- `re.sub` with the simple-null pattern `r"\{['\"]?\w+['\"]?\s*:\s*null\}"`,
replacement `null`. -/
def subDictPattern2 (s : String) : String :=
  String.mk (subDict2Aux s.data.length s.data)

/-- `DynamicWidgetGenerator._validate_and_clean_output`. -/
def validateAndCleanOutput (code : String) : String :=
  let c := subNoneWord code
  let c := subBadges c
  let c := unescapeLoop 3 c
  let c := subDoubleComma c
  let c := subCommaParen c
  subCommaBracket c

/-- One `WidgetTemplate` row.  `conditions` is the JSONField dictionary. -/
structure TemplateDef where
  template_code : String
  priority : Int
  conditions : List (String × Value)
  is_active : Bool

/-- One `WidgetProperty` row, carrying the fields the generator reads.
`default_value` is stored as text and parsed with `json.loads` at use; it
is modelled post-parse (`none` for the blank default), which no claim
distinguishes.  `allowed_values` models the `{'values': [...]}` JSON shape
(`none` for the falsy `{}` default). -/
structure PropertyDef where
  name : String
  property_type : String
  dart_type : String
  is_required : Bool
  default_value : Option Value
  allowed_values : Option (List String)

/-- One `WidgetType` row with its related properties (in the model's
`ordering = ['position', 'name']` query order) and templates. -/
structure WidgetType where
  name : String
  dart_class_name : String
  is_container : Bool
  can_have_multiple_children : Bool
  is_active : Bool
  properties : List PropertyDef
  templates : List TemplateDef

/-- The widget-type table. -/
def Schema := List WidgetType

/-- `WidgetType.objects.get(name=n, is_active=True)` (name is unique). -/
def lookupActiveWidgetType (sch : Schema) (n : String) : Option WidgetType :=
  List.find? (fun wt => wt.name == n && wt.is_active) sch

/-- `WidgetType.objects.get(name=n)` as used by `validate_component`. -/
def lookupAnyWidgetType (sch : Schema) (n : String) : Option WidgetType :=
  List.find? (fun wt => wt.name == n) sch

/-- Dotted-path resolution of `_matches_conditions`: walk the split key
through nested dicts, turning a missing key or a non-dict step into
Python `None`. -/
def resolvePath : Value → List String → Value
  | acc, [] => acc
  | .dict kvs, k :: rest => resolvePath (pyGetD kvs k .null) rest
  | _, _ :: _ => .null

/-- `DynamicWidgetGenerator._matches_conditions`. -/
def matchesConditions (conds : List (String × Value)) (data : List (String × Value)) : Bool :=
  conds.all (fun p =>
    let actual :=
      if pyInStr "." p.1 then resolvePath (.dict data) (pySplit p.1 ".")
      else pyGetD data p.1 .null
    match p.2 with
    | .list expected => expected.any (fun e => pyEq actual e)
    | e => pyEq actual e)

/-- Stable insertion for the descending-priority sort of
`templates.filter(is_active=True).order_by('-priority')`. -/
def insertByPriority (t : TemplateDef) : List TemplateDef → List TemplateDef
  | [] => [t]
  | u :: rest =>
    if u.priority ≤ t.priority then t :: u :: rest
    else u :: insertByPriority t rest

def sortByPriorityDesc (ts : List TemplateDef) : List TemplateDef :=
  ts.foldr insertByPriority []

/-- Default template for a multi-child container
(`_get_default_template`). -/
def defaultMultiTemplate : String :=
  "\x7b\x7b widget_name \x7d\x7d(\n\x7b% for prop in properties %\x7d\x7b% if prop.value != \"null\" %\x7d  \x7b\x7b prop.name \x7d\x7d: \x7b\x7b prop.value \x7d\x7d,\n\x7b% endif %\x7d\x7b% endfor %\x7d\x7b% if children %\x7d  children: [\n\x7b% for child in children %\x7d    \x7b\x7b child \x7d\x7d,\n\x7b% endfor %\x7d  ],\n\x7b% endif %\x7d)"

/-- Default template for a single-child container. -/
def defaultSingleTemplate : String :=
  "\x7b\x7b widget_name \x7d\x7d(\n\x7b% for prop in properties %\x7d\x7b% if prop.value != \"null\" %\x7d  \x7b\x7b prop.name \x7d\x7d: \x7b\x7b prop.value \x7d\x7d,\n\x7b% endif %\x7d\x7b% endfor %\x7d\x7b% if children %\x7d  child: \x7b\x7b children.0 \x7d\x7d,\n\x7b% endif %\x7d)"

/-- Default template for a leaf widget. -/
def defaultLeafTemplate : String :=
  "\x7b\x7b widget_name \x7d\x7d(\n\x7b% for prop in properties %\x7d\x7b% if prop.value != \"null\" %\x7d  \x7b\x7b prop.name \x7d\x7d: \x7b\x7b prop.value \x7d\x7d,\n\x7b% endif %\x7d\x7b% endfor %\x7d)"

/-- `DynamicWidgetGenerator._get_default_template`. -/
def getDefaultTemplate (wt : WidgetType) : String :=
  if wt.is_container && wt.can_have_multiple_children then defaultMultiTemplate
  else if wt.is_container then defaultSingleTemplate
  else defaultLeafTemplate

/-- `DynamicWidgetGenerator._get_template`: first active template, in
descending priority order, whose conditions match; otherwise the
structurally-derived default. -/
def getTemplate (wt : WidgetType) (data : List (String × Value)) : String :=
  match (sortByPriorityDesc (wt.templates.filter (fun t => t.is_active))).find?
      (fun t => matchesConditions t.conditions data) with
  | some t => t.template_code
  | none => getDefaultTemplate wt

/-- One processed property record (`{'name', 'value', 'type',
'is_required'}`); `value = none` models the Python `None` produced by the
broken string transformer. -/
structure ProcessedProp where
  name : String
  value : Option String
  ptype : String
  is_required : Bool

/-- Django rendering of `{{ prop.value }}`: `None` renders as `None`,
then auto-escaping applies. -/
def propValueText (v : Option String) : String :=
  match v with
  | some s => s
  | none => "None"

/-- One `  name: value,` line of the default templates (auto-escaped). -/
def propLine (p : ProcessedProp) : String :=
  "  " ++ htmlEscape p.name ++ ": " ++ htmlEscape (propValueText p.value) ++ ",\n"

/-- The property block shared by all three default templates, with the
`{% if prop.value != "null" %}` filter. -/
def concatAll : List String → String
  | [] => ""
  | x :: xs => x ++ concatAll xs

def renderedProps (props : List ProcessedProp) : String :=
  concatAll ((props.filter (fun p => p.value != some "null")).map propLine)

def childLine (c : String) : String :=
  "    " ++ htmlEscape c ++ ",\n"

/-- Django rendering of the default multi-child template body. -/
def renderDefaultMulti (wname : String) (props : List ProcessedProp)
    (children : List String) : String :=
  htmlEscape wname ++ "(\n" ++ renderedProps props ++
    (if children.isEmpty then ""
     else "  children: [\n" ++ concatAll (children.map childLine) ++ "  ],\n") ++ ")"

/-- Django rendering of the default single-child template body. -/
def renderDefaultSingle (wname : String) (props : List ProcessedProp)
    (children : List String) : String :=
  htmlEscape wname ++ "(\n" ++ renderedProps props ++
    (if children.isEmpty then ""
     else "  child: " ++ htmlEscape (children.headD "") ++ ",\n") ++ ")"

/-- Django rendering of the default leaf template body. -/
def renderDefaultLeaf (wname : String) (props : List ProcessedProp) : String :=
  htmlEscape wname ++ "(\n" ++ renderedProps props ++ ")"

/-- `DynamicWidgetGenerator._generate_fallback_widget`: emits
`Type(k: v, ...)` from the scalar raw properties; raises
`AttributeError` when the descriptor or its `properties` value is not a
dict (`.get` / `.items()`). -/
def generateFallback (d : Value) : Except PyErr String :=
  match d with
  | .dict kvs =>
    let wt := pyStr (pyGetD kvs "type" (.str "Container"))
    match pyGetD kvs "properties" (.dict []) with
    | .dict props =>
      let parts := props.foldr (fun p acc =>
        match p.2 with
        | .str s => (p.1 ++ ": '" ++ s ++ "'") :: acc
        | .bool b => (p.1 ++ ": " ++ (if b then "true" else "false")) :: acc
        | .int n => (p.1 ++ ": " ++ toString n) :: acc
        | _ => acc) []
      if parts.isEmpty then .ok (wt ++ "()")
      else .ok (wt ++ "(" ++ joinSep ", " parts ++ ")")
    | _ => .error .attributeError
  | _ => .error .attributeError

/-- `DynamicWidgetGenerator._render_template` for the three default
template bodies; the rendering of arbitrary database-stored Django bodies
is outside this model and is mapped to the function's caught-exception
path, which returns the fallback for the bare type name.  Every theorem
below only exercises schemas whose selected template is a default one. -/
def renderTemplate (tmpl : String) (wt : WidgetType) (props : List ProcessedProp)
    (children : List String) : String :=
  let rendered? : Option String :=
    if tmpl == defaultMultiTemplate then
      some (renderDefaultMulti wt.dart_class_name props children)
    else if tmpl == defaultSingleTemplate then
      some (renderDefaultSingle wt.dart_class_name props children)
    else if tmpl == defaultLeafTemplate then
      some (renderDefaultLeaf wt.dart_class_name props)
    else none
  match rendered? with
  | some r =>
    let r := pyStrip r
    let r := subDictPattern1 r
    let r := subDictPattern2 r
    let r := unescapeLoop 5 r
    let r := subCommaKeep r
    subBlankLines r
  | none =>
    match generateFallback (.dict [("type", .str wt.name)]) with
    | .ok s => s
    | .error _ => ""

/-- Built-in property handlers, keyed by `property_type`. -/
inductive Handler where
  | hstring
  | hint
  | hdouble
  | hbool
  | hcolor
  | hedgeInsets
  | halignment
  | htextStyle
  | hduration
  | hmap
  | hcustom
  | henum (cls : String) (allowed : List String)
  | hwidget (hasGen : Bool)
  | hlist (base : Handler)

/-- Construction keyword arguments passed to
`PropertyHandlerFactory.get_handler`. -/
inductive HandlerArgs where
  | noArgs
  | enumArgs (cls : String) (allowed : List String)
  | widgetGen

/-- `PropertyHandlerFactory.get_handler` (no custom handlers are
registered anywhere in the repository).  Requesting `enum` without its
required constructor arguments raises `TypeError`, as
`EnumPropertyHandler()` does.  The fuel is the type-name length; each
`_list` recursion shortens the name by five characters. -/
def getHandlerAux : Nat → String → HandlerArgs → Except PyErr Handler
  | 0, _, _ => .ok .hstring
  | fuel + 1, pt, args =>
    if pt == "string" then .ok .hstring
    else if pt == "int" then .ok .hint
    else if pt == "double" then .ok .hdouble
    else if pt == "bool" then .ok .hbool
    else if pt == "color" then .ok .hcolor
    else if pt == "edge_insets" then .ok .hedgeInsets
    else if pt == "alignment" then .ok .halignment
    else if pt == "text_style" then .ok .htextStyle
    else if pt == "duration" then .ok .hduration
    else if pt == "map" then .ok .hmap
    else if pt == "enum" then
      match args with
      | .enumArgs cls allowed => .ok (.henum cls (enumEffectiveAllowed cls allowed))
      | _ => .error .typeError
    else if pt == "widget" then
      match args with
      | .widgetGen => .ok (.hwidget true)
      | .noArgs => .ok (.hwidget false)
      | _ => .error .typeError
    else if pt == "widget_list" then
      match args with
      | .widgetGen => .ok (.hlist (.hwidget true))
      | .noArgs => .ok (.hlist (.hwidget false))
      | _ => .error .typeError
    else if pyEndsWith pt "_list" then do
      let base ← getHandlerAux fuel (String.mk (pt.data.take (pt.data.length - 5))) args
      .ok (.hlist base)
    else if pt == "custom" then .ok .hcustom
    else .ok .hstring

def getHandler (pt : String) (args : HandlerArgs) : Except PyErr Handler :=
  getHandlerAux pt.length pt args

/-- Dispatch of `handler.validate(value)`. -/
def handlerValidate : Handler → Value → Bool
  | .hstring, v => stringValidate v
  | .hint, v => numberValidate v
  | .hdouble, v => numberValidate v
  | .hbool, v => boolValidate v
  | .hcolor, v => colorValidate v
  | .hedgeInsets, _ => true
  | .halignment, _ => true
  | .htextStyle, v => textStyleValidate v
  | .hduration, _ => true
  | .hmap, v => mapValidate v
  | .hcustom, _ => true
  | .henum _ _, _ => true
  | .hwidget _, v => widgetValidate v
  | .hlist base, v =>
    match v with
    | .null => true
    | .list xs => xs.all (fun x => handlerValidate base x)
    | v' => handlerValidate base v'

/-- `DynamicWidgetGenerator._generate_text_widget`. -/
def generateTextWidget (d : Value) : Except PyErr String := do
  match d with
  | .dict kvs =>
    match decodeHtmlDeeply (pyGetD kvs "properties" (.dict [])) with
    | .dict pkvs => do
      let textData := pyStr (pyGetD pkvs "data" (pyGetD pkvs "text" (.str "Text")))
      let textData := unescapeLoop 5 textData
      let textData := pyReplace textData "'" "\\'"
      let styleProps ←
        match lookupVal pkvs "style" with
        | some (.dict skvs) => do
          let a := match lookupVal skvs "fontSize" with
            | some v => ["fontSize: " ++ pyStr v ++ ".0"]
            | none => []
          let b ← match lookupVal skvs "fontWeight" with
            | some (.str w) =>
              .ok ["fontWeight: " ++ (if pyStartsWith w "FontWeight." then w else "FontWeight." ++ w)]
            | some _ => .error .attributeError
            | none => .ok ([] : List String)
          let c := match lookupVal skvs "color" with
            | some v => ["color: " ++ colorTransform v]
            | none => []
          .ok (a ++ b ++ c)
        | some _ => .ok ([] : List String)
        | none =>
          match lookupVal pkvs "fontSize" with
          | some v => .ok ["fontSize: " ++ pyStr v ++ ".0"]
          | none => .ok ([] : List String)
      if styleProps.isEmpty then
        .ok ("Text('" ++ textData ++ "')")
      else
        .ok ("Text('" ++ textData ++ "', style: TextStyle(" ++ joinSep ", " styleProps ++ "))")
    | _ => .error .attributeError
  | _ => .error .attributeError

/-- `DynamicWidgetGenerator._generate_icon_widget`. -/
def generateIconWidget (d : Value) : Except PyErr String := do
  match d with
  | .dict kvs =>
    match decodeHtmlDeeply (pyGetD kvs "properties" (.dict [])) with
    | .dict pkvs =>
      match pyGetD pkvs "icon" (.str "Icons.info") with
      | .str ic0 =>
        let ic := if pyStartsWith ic0 "Icons." then ic0 else "Icons." ++ ic0
        let parts := [ic]
          ++ (match lookupVal pkvs "size" with
              | some v => ["size: " ++ pyStr v ++ ".0"]
              | none => [])
          ++ (match lookupVal pkvs "color" with
              | some v => ["color: " ++ colorTransform v]
              | none => [])
        if parts.length > 1 then
          .ok ("Icon(" ++ parts.headD "" ++ ", " ++ joinSep ", " parts.tail ++ ")")
        else
          .ok ("Icon(" ++ ic ++ ")")
      | _ => .error .attributeError
    | _ => .error .attributeError
  | _ => .error .attributeError

/-- Line 233-241 of `_process_properties`: drop raw entries whose value is
`None`, `"None"`, or `["None"]` (dict input only). -/
def cleanRawProps (raw : Value) : Value :=
  match raw with
  | .dict kvs =>
    .dict (kvs.filter (fun p =>
      match p.2 with
      | .null => false
      | .str s => s != "None"
      | .list [.str s] => s != "None"
      | _ => true))
  | v => v

/-- Handler construction arguments chosen in `_process_properties`. -/
def kwargsForDef (pd : PropertyDef) : HandlerArgs :=
  if pd.property_type == "enum" then
    if pd.name == "mainAxisAlignment" then
      .enumArgs "MainAxisAlignment" ["start", "end", "center", "spaceBetween", "spaceAround", "spaceEvenly"]
    else if pd.name == "crossAxisAlignment" then
      .enumArgs "CrossAxisAlignment" ["start", "end", "center", "stretch", "baseline"]
    else if pd.name == "textAlign" then
      .enumArgs "TextAlign" ["left", "right", "center", "justify", "start", "end"]
    else if pd.name == "fit" then
      .enumArgs "BoxFit" ["fill", "contain", "cover", "fitWidth", "fitHeight", "none", "scaleDown"]
    else
      match pd.allowed_values with
      | some vs =>
        .enumArgs (if pyInStr "." pd.dart_type then (pySplit pd.dart_type ".").headD "" else pd.dart_type) vs
      | none => .noArgs
  else if pd.property_type == "widget" || pd.property_type == "widget_list" then .widgetGen
  else .noArgs

/-- The raw-dict-syntax guard of `_process_properties` (lines 342-344):
`str(dart_value).startswith('{') and str(dart_value).endswith('}') and
':' in str(dart_value)`. -/
def dictShaped (s : String) : Bool :=
  pyStartsWith s "\x7b" && pyEndsWith s "\x7d" && pyInStr ":" s

/-- The badge body emitted by `_generate_badge_widget` around the child,
colour, and badge-content code. -/
def badgeBody (childCode color badgeCode : String) : String :=
  "Stack(\n          clipBehavior: Clip.none,\n          children: [\n            " ++
  childCode ++
  ",\n            Positioned(\n              right: -8,\n              top: -8,\n              child: Container(\n                padding: EdgeInsets.all(2),\n                decoration: BoxDecoration(\n                  color: " ++
  color ++
  ",\n                  borderRadius: BorderRadius.circular(10),\n                ),\n                constraints: BoxConstraints(\n                  minWidth: 20,\n                  minHeight: 20,\n                ),\n                child: Center(\n                  child: " ++
  badgeCode ++
  ",\n                ),\n              ),\n            ),\n          ],\n        )"

/-- Raw-value resolution for a declared property (lines 253-273 of
`_process_properties`): the raw entry if present (with the `None`
continue and the deep decode), else the parsed default, else Python
`None`; `Except.ok none` is the loop's `continue`, and a membership test
or indexing on a non-dict raw-properties value raises `TypeError`. -/
def resolveRaw (pd : PropertyDef) (raw : Value) : Except PyErr (Option Value) :=
  match raw with
  | .dict kvs =>
    (match lookupVal kvs pd.name with
     | some v =>
       (match v with
        | .null => .ok none
        | .str s =>
          if s == "None" then .ok none else .ok (some (decodeHtmlDeeply (.str s)))
        | v' => .ok (some (decodeHtmlDeeply v')))
     | none =>
       match pd.default_value with
       | some dv => .ok (some dv)
       | none => .ok (some Value.null))
  | .str s =>
    if pyInStr pd.name s then .error PyErr.typeError
    else
      match pd.default_value with
      | some dv => .ok (some dv)
      | none => .ok (some Value.null)
  | .list xs =>
    if xs.any (fun x => pyEq x (.str pd.name)) then .error PyErr.typeError
    else
      match pd.default_value with
      | some dv => .ok (some dv)
      | none => .ok (some Value.null)
  | _ => .error PyErr.typeError

/-- The enum-looking-string branch of `_handle_unknown_property`: two
well-known names are qualified directly, anything else goes to the string
handler (whose transform returns Python `None`). -/
def unknownEnumText (name s : String) : Except PyErr (Option String) :=
  if name == "mainAxisAlignment" then .ok (some ("MainAxisAlignment." ++ s))
  else if name == "crossAxisAlignment" then .ok (some ("CrossAxisAlignment." ++ s))
  else .ok (stringTransform (.str s))

/-- `', '.join(items)` over transformer results, wrapped in the list
literal of `ListPropertyHandler.transform`: a Python `None` item raises
`TypeError` inside `join`. -/
def joinItems (items : List (Option String)) : Except PyErr (Option String) :=
  if items.all (fun i => i.isSome) then
    .ok (some ("[" ++ joinSep ", " (items.map (fun i => i.getD "")) ++ "]"))
  else .error .typeError

mutual

/-- `DynamicWidgetGenerator.generate_widget`.  The fuel bounds the
recursion depth (Python's interpreter stack); every other behaviour is
translated from the source.  The `try`-body's failure is caught and
answered with `_generate_fallback_widget(component_data)`, whose own
exception (the `except` block is unprotected) propagates to the caller. -/
def generateWidget : Nat → Schema → Value → Except PyErr String
  | 0, _, _ => .error .recursionLimit
  | fuel + 1, sch, v0 =>
    let d := decodeHtmlDeeply v0
    match generateTry fuel sch d with
    | .ok s => .ok s
    | .error _ => generateFallback d

/-- Body of the `try` block of `generate_widget`, after the initial
deep-decoding of the descriptor. -/
def generateTry : Nat → Schema → Value → Except PyErr String
  | 0, _, _ => .error .recursionLimit
  | fuel + 1, sch, d =>
  match d with
  | .dict kvs =>
    let tname := pyGetD kvs "type" .null
    if !pyTruthy tname then generateFallback d
    else
      match tname with
      | .str s =>
        match lookupActiveWidgetType sch s with
        | none => generateFallback d
        | some wt =>
          if s == "CarouselSlider" then generateCarousel fuel sch d
          else if s == "Text" then generateTextWidget d
          else if s == "Icon" then generateIconWidget d
          else if s == "IconButton" || s == "FloatingActionButton" then
            generateButton fuel sch s d
          else if s == "Badge" then generateBadge fuel sch d
          else do
            let tmpl := getTemplate wt kvs
            let props ← processProperties fuel sch wt (pyGetD kvs "properties" (.dict []))
            let children ←
              if wt.is_container then
                processChildren fuel sch (pyGetD kvs "children" (.list []))
              else pure []
            .ok (validateAndCleanOutput (renderTemplate tmpl wt props children))
      | _ => generateFallback d
  | _ => .error .attributeError

/-- `DynamicWidgetGenerator._generate_carousel_slider`. -/
def generateCarousel : Nat → Schema → Value → Except PyErr String
  | 0, _, _ => .error .recursionLimit
  | fuel + 1, sch, d =>
  match d with
  | .dict kvs =>
    match pyGetD kvs "properties" (.dict []) with
    | .dict pkvs => do
      let items ←
        (match pyGetD pkvs "items" (.list []) with
         | .list xs => .ok xs
         | .str s => .ok (s.data.map (fun c => Value.str (String.mk [c])))
         | .dict dk => .ok (dk.map (fun p => Value.str p.1))
         | _ => .error PyErr.typeError)
      let itemsCode ← carouselItemsAux fuel sch items
      let itemsCode :=
        if itemsCode.isEmpty then
          ["Container(color: Colors.grey, child: Center(child: Text('Slide 1')))"]
        else itemsCode
      let optParts :=
        match pyGetD pkvs "options" (.dict []) with
        | .dict okvs =>
          (match lookupVal okvs "height" with
           | some v => ["height: " ++ pyStr v ++ ".0"]
           | none => [])
          ++ (match lookupVal okvs "autoPlay" with
              | some v => ["autoPlay: " ++ pyLower (pyStr v)]
              | none => [])
          ++ (match lookupVal okvs "autoPlayInterval" with
              | some (.int n) => ["autoPlayInterval: Duration(milliseconds: " ++ toString n ++ ")"]
              | some (.bool b) =>
                ["autoPlayInterval: Duration(milliseconds: " ++ (if b then "1" else "0") ++ ")"]
              | _ => [])
          ++ (match lookupVal okvs "viewportFraction" with
              | some v => ["viewportFraction: " ++ pyStr v]
              | none => [])
          ++ (match lookupVal okvs "enlargeCenterPage" with
              | some v => ["enlargeCenterPage: " ++ pyLower (pyStr v)]
              | none => [])
        | _ => []
      let optParts :=
        if optParts.any (fun p => pyInStr "height" p) then optParts
        else optParts ++ ["height: 200.0"]
      let optionsStr :=
        if optParts.isEmpty then "CarouselOptions(height: 200.0)"
        else "CarouselOptions(" ++ joinSep ", " optParts ++ ")"
      let itemsStr := "[\n    " ++ joinSep ",\n    " itemsCode ++ "\n  ]"
      .ok ("CarouselSlider(\n  options: " ++ optionsStr ++ ",\n  items: " ++ itemsStr ++ ",\n)")
    | _ => .error .attributeError
  | _ => .error .attributeError

def carouselItemsAux : Nat → Schema → List Value → Except PyErr (List String)
  | 0, _, _ => .error .recursionLimit
  | _ + 1, _, [] => .ok []
  | fuel + 1, sch, x :: rest => do
    let code ←
      match x with
      | .dict kvs => generateWidget fuel sch (.dict kvs)
      | _ => pure "Container()"
    let r ← carouselItemsAux fuel sch rest
    .ok (code :: r)

/-- `DynamicWidgetGenerator._generate_button_widget` (`tname` is the
descriptor's type, `IconButton` or `FloatingActionButton`). -/
def generateButton : Nat → Schema → String → Value → Except PyErr String
  | 0, _, _, _ => .error .recursionLimit
  | fuel + 1, sch, tname, d =>
  match d with
  | .dict kvs =>
    match decodeHtmlDeeply (pyGetD kvs "properties" (.dict [])) with
    | .dict pkvs => do
      let props :=
        if (lookupVal pkvs "onPressed").isSome then pkvs
        else pkvs ++ [("onPressed", Value.str "() \x7b\x7d")]
      if tname == "IconButton" then do
        let iconCode ←
          match pyGetD props "icon" (.dict []) with
          | .dict ikvs => generateWidget fuel sch (.dict ikvs)
          | _ => pure "Icon(Icons.info)"
        .ok ("IconButton(icon: " ++ iconCode ++ ", onPressed: " ++
          pyStr (pyGetD props "onPressed" .null) ++ ")")
      else if tname == "FloatingActionButton" then do
        let childCode ←
          match pyGetD props "child" (.dict []) with
          | .dict ckvs => generateWidget fuel sch (.dict ckvs)
          | _ => pure "Icon(Icons.add)"
        let parts := ["onPressed: " ++ pyStr (pyGetD props "onPressed" .null),
                      "child: " ++ childCode]
        let parts := parts ++
          (match lookupVal props "backgroundColor" with
           | some v => ["backgroundColor: " ++ colorTransform v]
           | none => [])
        .ok ("FloatingActionButton(" ++ joinSep ", " parts ++ ")")
      else generateFallback d
    | .str s =>
      -- membership test on a string props value, then `props['onPressed'] = ...`
      if pyInStr "onPressed" s then .error .attributeError else .error .typeError
    | .list xs =>
      if xs.any (fun x => pyEq x (.str "onPressed")) then .error .attributeError
      else .error .typeError
    | _ => .error .typeError
  | _ => .error .attributeError

/-- `DynamicWidgetGenerator._generate_badge_widget`. -/
def generateBadge : Nat → Schema → Value → Except PyErr String
  | 0, _, _ => .error .recursionLimit
  | fuel + 1, sch, d =>
  match d with
  | .dict kvs =>
    match decodeHtmlDeeply (pyGetD kvs "properties" (.dict [])) with
    | .dict pkvs => do
      let childCode ←
        match pyGetD pkvs "child" (.dict []) with
        | .dict ckvs => generateWidget fuel sch (.dict ckvs)
        | _ => pure "Container()"
      let badgeCode ←
        match pyGetD pkvs "badgeContent" (.dict []) with
        | .dict bkvs => generateWidget fuel sch (.dict bkvs)
        | _ => pure "Text('0')"
      let color := colorTransform (pyGetD pkvs "badgeColor" (.str "red"))
      .ok (badgeBody childCode color badgeCode)
    | _ => .error .attributeError
  | _ => .error .attributeError

/-- Dispatch of `handler.transform(value)`; `none` is the Python `None`
returned by the broken string transformer. -/
def handlerTransform : Nat → Schema → Handler → Value → Except PyErr (Option String)
  | 0, _, _, _ => .error .recursionLimit
  | fuel + 1, sch, h, v =>
  match h with
  | .hstring => .ok (stringTransform v)
  | .hint => .ok (some (numberTransform false v))
  | .hdouble => .ok (some (numberTransform true v))
  | .hbool => .ok (some (boolTransform v))
  | .hcolor => .ok (some (colorTransform v))
  | .hedgeInsets => .ok (some (edgeInsetsTransform v))
  | .halignment => .ok (some (alignmentTransform v))
  | .htextStyle => do .ok (some (← textStyleTransform v))
  | .hduration => .ok (some (durationTransform v))
  | .hmap => .ok (some (mapTransform v))
  | .hcustom => .ok (some (customTransform v))
  | .henum cls allowed => .ok (some (enumTransform cls allowed v))
  | .hwidget hasGen =>
    (match v with
     | .null => .ok (some "null")
     | .dict kvs =>
       if hasGen then do
         .ok (some (← generateWidget fuel sch (.dict kvs)))
       else .ok (some (pyStr (pyGetD kvs "type" (.str "Container")) ++ "()"))
     | .str s => .ok (some s)
     | _ => .ok (some "Container()"))
  | .hlist base =>
    (match v with
     | .null => .ok (some "[]")
     | .list xs => do
       let items ← hlistAux fuel sch base xs
       joinItems items
     | v' => do
       let items ← hlistAux fuel sch base [v']
       joinItems items)

def hlistAux : Nat → Schema → Handler → List Value → Except PyErr (List (Option String))
  | 0, _, _, _ => .error .recursionLimit
  | _ + 1, _, _, [] => .ok []
  | fuel + 1, sch, base, x :: rest => do
    let t ← handlerTransform fuel sch base x
    let r ← hlistAux fuel sch base rest
    .ok (t :: r)

/-- `DynamicWidgetGenerator._handle_unknown_property` (type-sniffing for
properties not declared in the schema). -/
def handleUnknownProperty : Nat → Schema → String → Value → Except PyErr (Option String)
  | 0, _, _, _ => .error .recursionLimit
  | fuel + 1, sch, name, v =>
  match v with
  | .null => .ok none
  | .bool b => .ok (some (boolTransform (.bool b)))
  | .int n => .ok (some (numberTransform false (.int n)))
  | .str s =>
    if pyStartsWith s "#" || pyStartsWith s "0x" || s == "red" || s == "blue" || s == "green" then
      .ok (some (colorTransform (.str s)))
    else if pyInStr " " s then .ok (stringTransform (.str s))
    else if pyIsLower s then unknownEnumText name s
    else
      match s.data.head? with
      | none => .error .indexError
      | some c => if c.isLower then unknownEnumText name s else .ok (stringTransform (.str s))
  | .dict kvs =>
    if (lookupVal kvs "type").isSome then do
      .ok (some (← generateWidget fuel sch (.dict kvs)))
    else if name == "padding" then .ok (some (edgeInsetsTransform (.dict kvs)))
    else if name == "margin" then .ok (some (edgeInsetsTransform (.dict kvs)))
    else if name == "decoration" then
      if kvs.isEmpty || kvs.all (fun p => match p.2 with | .null => true | _ => false) then
        .ok (some "null")
      else .ok (some "BoxDecoration()")
    else .ok (some "null")
  | .list xs =>
    match xs with
    | .dict fk :: tail =>
      if (lookupVal fk "type").isSome then
        handlerTransform fuel sch (.hlist (.hwidget true)) (.list (.dict fk :: tail))
      else do
        let items ← unknownListAux fuel sch name (.dict fk :: tail)
        .ok (some ("[" ++ joinSep ", " items ++ "]"))
    | other => do
      let items ← unknownListAux fuel sch name other
      .ok (some ("[" ++ joinSep ", " items ++ "]"))

def unknownListAux : Nat → Schema → String → List Value → Except PyErr (List String)
  | 0, _, _, _ => .error .recursionLimit
  | _ + 1, _, _, [] => .ok []
  | fuel + 1, sch, name, x :: rest => do
    let d? ← handleUnknownProperty fuel sch (name ++ "_item") x
    let r ← unknownListAux fuel sch name rest
    match d? with
    | some ds => if ds != "" then .ok (ds :: r) else .ok r
    | none => .ok r

/-- Declared-property resolution and transformation: one iteration of the
`for prop_def in property_defs` loop of `_process_properties`; `none`
means the loop `continue`d without emitting an entry. -/
def processOneDef : Nat → Schema → PropertyDef → Value → Except PyErr (Option ProcessedProp)
  | 0, _, _, _ => .error .recursionLimit
  | fuel + 1, sch, pd, raw => do
    let pv? ← resolveRaw pd raw
    match pv? with
    | none => pure none
    | some pv => processResolved fuel sch pd pv

/-- Validation, transformation, and the dict-syntax guard applied to one
resolved property value (`Value.null` is the Python `None` carried when a
required property is unresolvable). -/
def processResolved : Nat → Schema → PropertyDef → Value → Except PyErr (Option ProcessedProp)
  | 0, _, _, _ => .error .recursionLimit
  | fuel + 1, sch, pd, pv =>
    let skip := match pv with | .null => !pd.is_required | _ => false
    if skip then pure none
    else do
      let handler ← getHandler pd.property_type (kwargsForDef pd)
      let pv := if !handlerValidate handler pv && pd.is_required then Value.null else pv
      let dart? ← handlerTransform fuel sch handler pv
      let final := if dictShaped (propValueText dart?) then some "null" else dart?
      pure (some ⟨pd.name, final, pd.property_type, pd.is_required⟩)

def processDefsAux : Nat → Schema → Value → List PropertyDef → Except PyErr (List ProcessedProp)
  | 0, _, _, _ => .error .recursionLimit
  | _ + 1, _, _, [] => .ok []
  | fuel + 1, sch, raw, pd :: rest => do
    let e? ← processOneDef fuel sch pd raw
    let r ← processDefsAux fuel sch raw rest
    match e? with
    | some e => .ok (e :: r)
    | none => .ok r

/-- The trailing loop of `_process_properties` over raw entries not
declared in the schema (and not `items`/`options`). -/
def extraPropsAux : Nat → Schema → List String → List (String × Value) →
    Except PyErr (List ProcessedProp)
  | 0, _, _, _ => .error .recursionLimit
  | _ + 1, _, _, [] => .ok []
  | fuel + 1, sch, defined, (k, v) :: rest => do
    let here? ←
      if !defined.contains k && k != "items" && k != "options" then do
        let d? ← handleUnknownProperty fuel sch k v
        (match d? with
         | some ds =>
           if ds != "" then
             pure (some (⟨k, some ds, "unknown", false⟩ : ProcessedProp))
           else pure (none : Option ProcessedProp)
         | none => pure (none : Option ProcessedProp))
      else pure (none : Option ProcessedProp)
    let r ← extraPropsAux fuel sch defined rest
    .ok (match here? with | some e => e :: r | none => r)

/-- `DynamicWidgetGenerator._process_properties`. -/
def processProperties : Nat → Schema → WidgetType → Value → Except PyErr (List ProcessedProp)
  | 0, _, _, _ => .error .recursionLimit
  | fuel + 1, sch, wt, raw0 => do
  let raw := cleanRawProps raw0
  if wt.name == "Text" then .ok []
  else do
    let first ← processDefsAux fuel sch raw wt.properties
    match raw with
    | .dict kvs => do
      let extra ← extraPropsAux fuel sch (wt.properties.map (fun p => p.name)) kvs
      .ok (first ++ extra)
    | _ => .error .attributeError

/-- `DynamicWidgetGenerator._process_children`. -/
def processChildren : Nat → Schema → Value → Except PyErr (List String)
  | 0, _, _ => .error .recursionLimit
  | fuel + 1, sch, cd =>
  if !pyTruthy cd then .ok []
  else if pyEq cd (.str "None") || pyEq cd (.list [.str "None"]) then .ok []
  else
    match cd with
    | .list xs => childrenAux fuel sch xs
    | _ => .ok []

def childrenAux : Nat → Schema → List Value → Except PyErr (List String)
  | 0, _, _ => .error .recursionLimit
  | _ + 1, _, [] => .ok []
  | fuel + 1, sch, x :: rest =>
    match x with
    | .dict kvs => do
      let c ← generateWidget fuel sch (.dict kvs)
      let r ← childrenAux fuel sch rest
      .ok (c :: r)
    | .str s => do
      let r ← childrenAux fuel sch rest
      .ok (s :: r)
    | _ => childrenAux fuel sch rest

end

/-- Validation result record of `validate_component`. -/
structure VResult where
  valid : Bool
  errors : List String
  warnings : List String

/-- Python `prop_def.name in props` for the possibly non-dict
`properties` value inside `validate_component`. -/
def requiredMember (props : Value) (n : String) : Except PyErr Bool :=
  match props with
  | .dict kvs => .ok ((lookupVal kvs n).isSome)
  | .str s => .ok (pyInStr n s)
  | .list xs => .ok (xs.any (fun x => pyEq x (.str n)))
  | _ => .error .typeError

/-- Missing-required-property warnings of `validate_component` (warnings
only, never errors). -/
def requiredWarns (props : Value) : List PropertyDef → Except PyErr (List String)
  | [] => .ok []
  | pd :: rest => do
    let m ← requiredMember props pd.name
    let r ← requiredWarns props rest
    if m then .ok r
    else .ok (("Required property '" ++ pd.name ++ "' is missing") :: r)

/-- Per-property value validation of `validate_component`; the handler is
fetched without construction arguments, so an enum-typed declared
property raises `TypeError` here. -/
def valueErrors (props : Value) : List PropertyDef → Except PyErr (List String × Bool)
  | [] => .ok ([], false)
  | pd :: rest => do
    let m ← requiredMember props pd.name
    if m then
      match props with
      | .dict kvs => do
        let v := (lookupVal kvs pd.name).getD .null
        let handler ← getHandler pd.property_type .noArgs
        let (r, b) ← valueErrors props rest
        if !handlerValidate handler v then
          .ok (("Invalid value for property '" ++ pd.name ++ "': " ++ pyStr v) :: r, true)
        else .ok (r, b)
      | _ => .error .typeError
    else
      valueErrors props rest

/-- `DynamicWidgetGenerator.validate_component`. -/
def validateComponent (sch : Schema) (d : Value) : Except PyErr VResult := do
  match d with
  | .dict kvs =>
    let tname := pyGetD kvs "type" .null
    if !pyTruthy tname then
      .ok ⟨false, ["Widget type is required"], []⟩
    else
      let wt? :=
        match tname with
        | .str s => lookupAnyWidgetType sch s
        | _ => none
      match wt? with
      | none =>
        .ok ⟨true, [], ["Widget type '" ++ pyStr tname ++ "' not found in database"]⟩
      | some wt => do
        let textWarn ←
          if (match tname with | .str s => s == "Text" | _ => false) then
            match pyGetD kvs "properties" (.dict []) with
            | .dict pkvs =>
              if !pyTruthy (pyGetD pkvs "data" .null) && !pyTruthy (pyGetD pkvs "text" .null) then
                pure ["Text widget should have 'data' or 'text' property"]
              else pure ([] : List String)
            | _ => throw PyErr.attributeError
          else pure ([] : List String)
        let props := pyGetD kvs "properties" (.dict [])
        let reqWarns ← requiredWarns props (wt.properties.filter (fun p => p.is_required))
        let (errs, anyInvalid) ← valueErrors props wt.properties
        .ok ⟨!anyInvalid, errs, textWarn ++ reqWarns⟩
  | _ => .error .attributeError

/-- Scan for any match of the dict-literal pattern
`\{['\"][\w]+['\"]\s*:\s*[^}]+\}` in a string (the shape the spec calls a
raw `{key: value}` fragment). -/
def hasDictFragAux : Nat → List Char → Bool
  | 0, _ => false
  | _ + 1, [] => false
  | fuel + 1, c :: rest =>
    if c = lbrace then
      match matchDict1 rest with
      | some _ => true
      | none => hasDictFragAux fuel rest
    else hasDictFragAux fuel rest

def hasDictFragment (s : String) : Bool :=
  hasDictFragAux s.data.length s.data

/-- Specification-side statement of template selection (claim C6): either
some active template matches the descriptor and the selected body is that
of a matching active template of maximal priority, or no active template
matches and the structurally-derived default is used. -/
def TemplateSelected (wt : WidgetType) (data : List (String × Value)) (body : String) : Prop :=
  (∃ t ∈ wt.templates, t.is_active = true ∧ matchesConditions t.conditions data = true ∧
     body = t.template_code ∧
     ∀ u ∈ wt.templates, u.is_active = true → matchesConditions u.conditions data = true →
       u.priority ≤ t.priority) ∨
  ((∀ t ∈ wt.templates, t.is_active = true → matchesConditions t.conditions data = false) ∧
   body = getDefaultTemplate wt)

/-- Spec-side predicate for claim C9: the declared property is present in
the descriptor's properties dict and its value is rejected by its handler
(fetched, as `validate_component` does, without construction arguments). -/
def presentInvalid (pkvs : List (String × Value)) (pd : PropertyDef) : Bool :=
  match lookupVal pkvs pd.name with
  | some v =>
    match getHandler pd.property_type .noArgs with
    | .ok h => !handlerValidate h v
    | .error _ => false
  | none => false

/-- Descending-priority comparison used by the template ordering. -/
abbrev tPriorityGE : TemplateDef → TemplateDef → Prop :=
  fun a b => b.priority ≤ a.priority

/-- The parts appear in the text, in order, without overlap. -/
def containsInOrderL : List Char → List (List Char) → Prop
  | _, [] => True
  | s, p :: ps => ∃ pre suf, s = pre ++ p ++ suf ∧ containsInOrderL suf ps

/-! Concrete fixtures used by the counterexamples and witnesses. -/

/-- A descriptor whose `properties` value is a string, not a dict. -/
def badPropsDesc : Value := .dict [("properties", .str "x")]

/-- `{type: "Text", properties: {}}`. -/
def textDescEmpty : Value := .dict [("type", .str "Text"), ("properties", .dict [])]

/-- A bare `Text` widget-type row. -/
def textWT : WidgetType := ⟨"Text", "Text", false, false, true, [], []⟩

/-- A leaf widget type `W` with no declared properties and no templates. -/
def wWT10 : WidgetType := ⟨"W", "W", false, false, true, [], []⟩

/-- Sixteen-fold HTML-encoded spelling that decodes to `None` after ten
unescape passes (`&#78;` is `N`). -/
def e10str : String := "&amp;amp;amp;amp;amp;amp;amp;amp;amp;#78;one"

/-- Descriptor whose undeclared `mainAxisAlignment` property carries the
deeply encoded `None`. -/
def d10desc : Value :=
  .dict [("type", .str "W"), ("properties", .dict [("mainAxisAlignment", .str e10str)])]

/-- Widget type `M` with one declared free-form-map property `data`. -/
def mapWT : WidgetType :=
  ⟨"M", "M", false, false, true, [⟨"data", "map", "Map<String, dynamic>", false, none, none⟩], []⟩

/-- Descriptor with a user string shaped like a Python dict literal. -/
def c8desc : Value :=
  .dict [("type", .str "Foo"), ("properties", .dict [("p", .str "\x7b'a': 1\x7d")])]

/-- Widget type `V` with one required string property `req`. -/
def vWT : WidgetType :=
  ⟨"V", "V", false, false, true, [⟨"req", "string", "String", true, none, none⟩], []⟩

/-- A multi-child container `Row` with one declared enum property. -/
def rowWT : WidgetType :=
  ⟨"Row", "Row", true, true, true,
   [⟨"mainAxisAlignment", "enum", "MainAxisAlignment", false, none, none⟩], []⟩

/-- `{type: "Text", properties: {data: "A"}}`. -/
def descA : Value := .dict [("type", .str "Text"), ("properties", .dict [("data", .str "A")])]

/-- `{type: "Text", properties: {data: "B"}}`. -/
def descB : Value := .dict [("type", .str "Text"), ("properties", .dict [("data", .str "B")])]

/-! ## Theorems -/

/-- C1: the claim says `generate_widget` returns a non-empty string and
never raises for every descriptor, including one whose `properties` value
is not a dict.  The code contradicts its own never-throw design: for
`{'properties': 'x'}` the fallback renderer raises `AttributeError` on
`props.items()`, and the `except` block re-invokes that same fallback
unprotected, so the exception escapes `generate_widget` to its caller. -/
theorem claim_C1_totality_bug :
    generateWidget 10 [] badPropsDesc = .error .attributeError := by
  rfl

/-- C2: the claim says the string transformer quotes and escapes every
plain string and maps null to an empty-string or null literal, always
returning a string.  The source's `StringPropertyHandler.transform`
returns `"{}"` for null and falls off the end (Python `None`, modelled
`none`) for every string input, so it returns a quoted literal for no
input at all. -/
theorem claim_C2_string_transform_bug :
    stringTransform (.str "hello") = none ∧
    stringTransform (.str "") = none ∧
    stringTransform .null = some "\x7b\x7d" := by
  exact ⟨rfl, rfl, rfl⟩

/-- C3 counterexample: for the declared free-form-map property `data`
with raw value `{'k': 'v'}`, the map transformer does produce the map
literal, but the processed property that reaches rendering carries the
null literal `"null"`, not the map literal — the dict-syntax guard of
`_process_properties` replaced it. -/
theorem claim_C3_map_counterexample :
    mapTransform (.dict [("k", .str "v")]) = "\x7b'k': 'v'\x7d" ∧
    processProperties 5 [mapWT] mapWT (.dict [("data", .dict [("k", .str "v")])]) =
      .ok [⟨"data", some "null", "map", false⟩] := by
  exact ⟨rfl, rfl⟩

/-- C4 counterexample: when the `Text` widget type is absent from the
schema store, `generate_widget({type: "Text", properties: {}})` falls
back before reaching the special-cased text renderer and emits the empty
call `Text()`, with no textual content argument. -/
theorem claim_C4_label_counterexample :
    generateWidget 5 [] textDescEmpty = .ok "Text()" := by
  rfl

/-- C8 counterexample: the fallback renderer quotes raw string property
values verbatim and returns without any dict-literal scrub, so a
user-supplied string shaped like a Python dict reaches the returned
output; `hasDictFragment` is the model of the very pattern
`_render_template` scrubs with. -/
theorem claim_C8_leakage_counterexample :
    generateWidget 5 [] c8desc = .ok "Foo(p: '\x7b'a': 1\x7d')" ∧
    hasDictFragment "Foo(p: '\x7b'a': 1\x7d')" = true := by
  exact ⟨rfl, rfl⟩

/-- C9 counterexample: a required property that is completely absent (no
value, no default) yields only a warning — the result is still marked
valid — contradicting the claim that validation fails exactly when a
required property is left fully unresolvable. -/
theorem claim_C9_validate_counterexample :
    validateComponent [vWT] (.dict [("type", .str "V"), ("properties", .dict [])]) =
      .ok ⟨true, [], ["Required property 'req' is missing"]⟩ := by
  rfl

/-- C10 counterexample: a ten-fold HTML-encoded `None` survives the three
bounded decode passes that precede output cleaning, is missed by the
`\bNone\b` substitution (which runs first), and is then reconstituted by
the final entity-decoding loop, so the string returned through the
template pipeline contains the standalone word `None`. -/
theorem claim_C10_none_counterexample :
    generateWidget 10 [wWT10] d10desc =
      .ok "W(\n  mainAxisAlignment: MainAxisAlignment.None\n)" ∧
    hasNoneWord "W(\n  mainAxisAlignment: MainAxisAlignment.None\n)" = true := by
  exact ⟨rfl, rfl⟩

/-- C5: an enum-tagged property given a bare word (no dot) that is not in
the allowed-value set is qualified as `EnumClass.word` — the
case-insensitive first match's canonical spelling when one exists, the
raw word verbatim otherwise — never a quoted string, never an error. -/
theorem claim_C5_enum_tolerance (cls : String) (allowed : List String) (w : String)
    (hdot : pyInStr "." w = false) (hmem : allowed.contains w = false) :
    enumTransform cls allowed (.str w) =
      (match allowed.find? (fun a => pyLower a == pyLower w) with
       | some a => cls ++ "." ++ a
       | none => cls ++ "." ++ w) := by
  show (if pyInStr "." w then w else enumQualify cls allowed w) = _
  rw [hdot]
  simp only [Bool.false_eq_true, if_false]
  unfold enumQualify
  cases hA : allowed.isEmpty
  · simp only [Bool.not_false, if_true, hmem, Bool.false_eq_true, if_false]
  · have : allowed = [] := List.isEmpty_iff.mp hA
    subst this
    simp

/-- Witness for C5 at a concrete unknown bare word. -/
theorem claim_C5_enum_tolerance_witness :
    pyInStr "." "flurb" = false ∧ (["start", "end"].contains "flurb") = false ∧
    enumTransform "MainAxisAlignment" ["start", "end"] (.str "flurb") =
      "MainAxisAlignment.flurb" := by
  refine ⟨by decide, by decide, ?_⟩
  have h := claim_C5_enum_tolerance "MainAxisAlignment" ["start", "end"] "flurb"
    (by decide) (by decide)
  simpa using h

/-- C4 amended: whenever the `Text` widget type is present (and active)
in the schema store, rendering `{type: "Text", properties: {}}` goes
through the special-cased text renderer and emits `Text('Text')` — the
default textual content as first positional argument.  (When the type is
absent, the fallback emits the empty call `Text()`, see the
counterexample.) -/
theorem claim_C4_label_amended (fuel : Nat) (sch : Schema) (wt : WidgetType)
    (h : lookupActiveWidgetType sch "Text" = some wt) :
    generateWidget (fuel + 2) sch textDescEmpty = .ok "Text('Text')" := by
  have ht : generateTry (fuel + 1) sch textDescEmpty = .ok "Text('Text')" := by
    show (match lookupActiveWidgetType sch "Text" with
          | none => generateFallback textDescEmpty
          | some _ => generateTextWidget textDescEmpty) = .ok "Text('Text')"
    rw [h]
    rfl
  show (match generateTry (fuel + 1) sch textDescEmpty with
        | Except.ok s => Except.ok s
        | Except.error _ => generateFallback textDescEmpty) = Except.ok "Text('Text')"
  rw [ht]

/-- Witness for C4's amended claim: a store containing the `Text` row. -/
theorem claim_C4_label_amended_witness :
    lookupActiveWidgetType [textWT] "Text" = some textWT ∧
    generateWidget 5 [textWT] textDescEmpty = .ok "Text('Text')" := by
  exact ⟨rfl, claim_C4_label_amended 3 [textWT] textWT rfl⟩

theorem upsert_ne_nil (l : List (String × Value)) (k : String) (v : Value) :
    upsert l k v ≠ [] := by
  cases l with
  | nil => simp [upsert]
  | cons p rest =>
    unfold upsert
    split <;> simp

theorem decodeHtmlDict_ne_nil (kvs acc : List (String × Value))
    (h : kvs ≠ [] ∨ acc ≠ []) : decodeHtmlDict kvs acc ≠ [] := by
  induction kvs generalizing acc with
  | nil =>
    have : acc ≠ [] := by
      rcases h with h1 | h2
      · exact absurd rfl h1
      · exact h2
    simpa [decodeHtmlDict] using this
  | cons p rest ih =>
    show decodeHtmlDict rest (upsert acc (unescapeLoop 5 p.1) (decodeHtmlDeeply p.2)) ≠ []
    exact ih _ (Or.inr (upsert_ne_nil _ _ _))

theorem listIsInfix_singleton_of_mem {c : Char} {cs : List Char} (h : c ∈ cs) :
    listIsInfix [c] cs = true := by
  induction cs with
  | nil => cases h
  | cons d rest ih =>
    unfold listIsInfix
    by_cases hd : ([c].isPrefixOf (d :: rest)) = true
    · simp [hd]
    · have hcd : ¬ c = d := by
        intro he
        subst he
        exact hd (by simp [List.isPrefixOf])
      have hmem : c ∈ rest := by
        rcases List.mem_cons.mp h with h1 | h2
        · exact absurd h1 hcd
        · exact h2
      simp [hd, ih hmem]

theorem isSuffixOf_singleton_append (xs : List Char) (c : Char) :
    ([c].isSuffixOf (xs ++ [c])) = true := by
  simp [List.isSuffixOf, List.isPrefixOf]

theorem joinSep_cons_data (sep x : String) (xs : List String) :
    ∃ t, (joinSep sep (x :: xs)).data = x.data ++ t := by
  cases xs with
  | nil => exact ⟨[], by simp [joinSep]⟩
  | cons y rest =>
    refine ⟨sep.data ++ (joinSep sep (y :: rest)).data, ?_⟩
    show (x ++ sep ++ joinSep sep (y :: rest)).data = _
    simp [String.data_append, List.append_assoc]

theorem prefix_singleton_cons (c : Char) (xs : List Char) :
    ([c].isPrefixOf (c :: xs)) = true := by
  simp [List.isPrefixOf]

theorem mapItem_colon_mem (p : String × Value) : ':' ∈ (mapItem p).data := by
  show ':' ∈ ("'" ++ p.1 ++ "'" ++ ": " ++ _).data
  simp [String.data_append]

/-- The free-form-map transformer's output on a nonempty dict always has
the `{...:...}` shape the dict-syntax guard looks for. -/
theorem mapTransform_dictShaped (kvs : List (String × Value)) (h : kvs ≠ []) :
    dictShaped (mapTransform (.dict kvs)) = true := by
  obtain ⟨p, rest, rfl⟩ := List.exists_cons_of_ne_nil h
  have hdata : (mapTransform (.dict (p :: rest))).data =
      lbrace :: ((joinSep ", " (List.map mapItem (p :: rest))).data ++ [rbrace]) := by
    show ("\x7b" ++ joinSep ", " (List.map mapItem (p :: rest)) ++ "\x7d").data = _
    simp [String.data_append]
    exact ⟨by decide, by decide⟩
  unfold dictShaped pyStartsWith pyEndsWith pyInStr
  rw [hdata, Bool.and_eq_true, Bool.and_eq_true]
  refine ⟨⟨?_, ?_⟩, ?_⟩
  · have he : "\x7b".data = [lbrace] := rfl
    rw [he]
    exact prefix_singleton_cons lbrace _
  · have he : "\x7d".data = [rbrace] := rfl
    rw [he]
    have := isSuffixOf_singleton_append
      (lbrace :: (joinSep ", " (List.map mapItem (p :: rest))).data) rbrace
    simpa using this
  · have he : ":".data = [':'] := rfl
    rw [he]
    apply listIsInfix_singleton_of_mem
    rw [List.map_cons]
    obtain ⟨t, ht⟩ := joinSep_cons_data ", " (mapItem p) (List.map mapItem rest)
    rw [ht]
    have := mapItem_colon_mem p
    simp [List.mem_append, this]

/-- C3 amended: for a declared property with the free-form-map type tag
whose raw value is a nonempty dict, the map transformer's literal is
discarded by the dict-syntax guard of `_process_properties`, and the
processed value that reaches rendering is the null literal `"null"`
(which the default templates then omit). -/
theorem claim_C3_map_amended (fuel : Nat) (sch : Schema) (pd : PropertyDef)
    (raw kvs : List (String × Value))
    (hty : pd.property_type = "map")
    (hlook : lookupVal raw pd.name = some (.dict kvs)) (hne : kvs ≠ []) :
    processOneDef (fuel + 3) sch pd (.dict raw) =
      .ok (some ⟨pd.name, some "null", "map", pd.is_required⟩) := by
  have hguard : dictShaped (mapTransform (.dict (decodeHtmlDict kvs []))) = true :=
    mapTransform_dictShaped _ (decodeHtmlDict_ne_nil kvs [] (Or.inl hne))
  have hh : getHandler "map" (kwargsForDef pd) = .ok .hmap := rfl
  simp only [processOneDef, resolveRaw, processResolved, hlook, hty, hh]
  simp only [bind, Except.bind, pure, Except.pure, decodeHtmlDeeply, kwargsForDef]
  simp [processResolved, handlerTransform, handlerValidate, mapValidate, propValueText, hguard,
    getHandler]

/-- Witness for C3's amended claim at `{'k': 'v'}`. -/
theorem claim_C3_map_amended_witness :
    lookupVal [("data", Value.dict [("k", Value.str "v")])] "data" =
      some (.dict [("k", Value.str "v")]) ∧
    processOneDef 5 [] ⟨"data", "map", "Map<String, dynamic>", false, none, none⟩
      (.dict [("data", .dict [("k", .str "v")])]) =
      .ok (some ⟨"data", some "null", "map", false⟩) := by
  refine ⟨rfl, ?_⟩
  exact claim_C3_map_amended 2 [] ⟨"data", "map", "Map<String, dynamic>", false, none, none⟩
    [("data", .dict [("k", .str "v")])] [("k", Value.str "v")] rfl rfl (by simp)

/-- C8 amended: within the declared-property pipeline the dict-syntax
guard guarantees that no processed value with the raw `{key: value}`
shape survives — it is replaced by the null literal before rendering.
(The fallback and special-case renderers perform no such scrub, see the
counterexample.) -/
theorem claim_C8_leakage_amended (fuel : Nat) (sch : Schema) (pd : PropertyDef)
    (raw : Value) (e : ProcessedProp) (s : String)
    (hok : processOneDef fuel sch pd raw = .ok (some e)) (hv : e.value = some s) :
    dictShaped s = false := by
  match fuel with
  | 0 => simp [processOneDef] at hok
  | fuel + 1 =>
    simp only [processOneDef, bind, Except.bind] at hok
    rcases hr : resolveRaw pd raw with err | pv?
    · rw [hr] at hok
      simp at hok
    · rw [hr] at hok
      rcases pv? with _ | pv
      · simp [pure, Except.pure] at hok
      · simp only at hok
        match fuel, hok with
        | 0, hok => simp [processResolved] at hok
        | fuel + 1, hok =>
          simp only [processResolved, bind, Except.bind] at hok
          split at hok
          · simp [pure, Except.pure] at hok
          · rcases hh : getHandler pd.property_type (kwargsForDef pd) with err | handler
            · rw [hh] at hok
              simp at hok
            · rw [hh] at hok
              simp only at hok
              rcases hd : handlerTransform fuel sch handler
                  (if !handlerValidate handler pv && pd.is_required then Value.null else pv)
                  with err | dart?
              · rw [hd] at hok
                simp at hok
              · rw [hd] at hok
                simp only [pure, Except.pure, Except.ok.injEq, Option.some.injEq] at hok
                subst hok
                simp only at hv
                by_cases hg : dictShaped (propValueText dart?) = true
                · rw [if_pos hg] at hv
                  cases hv
                  decide
                · rw [if_neg hg] at hv
                  subst hv
                  simp only [propValueText] at hg
                  exact Bool.not_eq_true _ ▸ (by simpa using hg)

/-- Witness for C8's amended claim: the processed map property carries
`"null"`, which is not dict-shaped. -/
theorem claim_C8_leakage_amended_witness :
    processOneDef 6 [] ⟨"style", "map", "Map<String, dynamic>", true, none, none⟩
      (.dict [("style", .dict [("a", Value.int 1)])]) =
      .ok (some ⟨"style", some "null", "map", true⟩) ∧
    dictShaped "null" = false := by
  refine ⟨rfl, ?_⟩
  exact claim_C8_leakage_amended 6 [] ⟨"style", "map", "Map<String, dynamic>", true, none, none⟩
    (.dict [("style", .dict [("a", Value.int 1)])]) ⟨"style", some "null", "map", true⟩
    "null" rfl rfl

theorem containsInOrder_prepend (pre s : List Char) (parts : List (List Char))
    (h : containsInOrderL s parts) : containsInOrderL (pre ++ s) parts := by
  cases parts with
  | nil => trivial
  | cons p ps =>
    obtain ⟨a, b, hab, hrest⟩ := h
    exact ⟨pre ++ a, b, by rw [hab]; simp [List.append_assoc], hrest⟩

theorem childLines_contains (ss : List String) (tail : List Char) :
    containsInOrderL ((concatAll (ss.map childLine)).data ++ tail)
      (ss.map (fun c => (htmlEscape c).data)) := by
  induction ss generalizing tail with
  | nil => trivial
  | cons s rest ih =>
    refine ⟨"    ".data,
      ",\n".data ++ ((concatAll (rest.map childLine)).data ++ tail), ?_, ?_⟩
    · show (concatAll (List.map childLine (s :: rest))).data ++ tail = _
      rw [List.map_cons]
      show (childLine s ++ concatAll (List.map childLine rest)).data ++ tail = _
      unfold childLine
      simp [String.data_append, List.append_assoc]
    · exact containsInOrder_prepend _ _ _ (ih _)

/-- Each escaped child string appears once, in input order, inside the
children block of the default multi-child template. -/
theorem renderDefaultMulti_contains (wname : String) (props : List ProcessedProp)
    (ss : List String) (hne : ss ≠ []) :
    containsInOrderL (renderDefaultMulti wname props ss).data
      (ss.map (fun c => (htmlEscape c).data)) := by
  have hdata : (renderDefaultMulti wname props ss).data =
      ((htmlEscape wname).data ++ "(\n".data ++ (renderedProps props).data ++
        "  children: [\n".data) ++
      ((concatAll (ss.map childLine)).data ++ ("  ],\n".data ++ ")".data)) := by
    unfold renderDefaultMulti
    rw [if_neg (by simpa [List.isEmpty_iff] using hne)]
    simp [String.data_append, List.append_assoc]
  rw [hdata]
  exact containsInOrder_prepend _ _ _ (childLines_contains ss _)

/-- Index-wise specification of `_process_children` on a list of
widget-shaped maps: one rendered string per child, in order, each being
`generate_widget`'s output on that child. -/
theorem childrenAux_spec (sch : Schema) (cs : List Value) : ∀ fuel ss,
    (∀ c ∈ cs, ∃ kvs, c = Value.dict kvs) →
    childrenAux fuel sch cs = .ok ss →
    ss.length = cs.length ∧
    ∀ i (h1 : i < cs.length) (h2 : i < ss.length),
      ∃ f, generateWidget f sch (cs.get ⟨i, h1⟩) = .ok (ss.get ⟨i, h2⟩) := by
  induction cs with
  | nil =>
    intro fuel ss _ hok
    match fuel, hok with
    | 0, hok => simp [childrenAux] at hok
    | f + 1, hok =>
      have : ss = [] := by simpa [childrenAux] using hok.symm
      subst this
      exact ⟨rfl, by intro i h1 _; cases h1⟩
  | cons c rest ih =>
    intro fuel ss hd hok
    match fuel, hok with
    | 0, hok => simp [childrenAux] at hok
    | f + 1, hok =>
      obtain ⟨kvs, rfl⟩ := hd c (by simp)
      simp only [childrenAux, bind, Except.bind] at hok
      rcases hg : generateWidget f sch (.dict kvs) with err | s
      · rw [hg] at hok
        simp at hok
      · rw [hg] at hok
        rcases hr : childrenAux f sch rest with err | ss'
        · rw [hr] at hok
          simp at hok
        · rw [hr] at hok
          simp only [pure, Except.pure, Except.ok.injEq] at hok
          subst hok
          obtain ⟨hlen, hidx⟩ := ih f ss' (fun x hx => hd x (List.mem_cons_of_mem _ hx)) hr
          refine ⟨by simp [hlen], ?_⟩
          intro i h1 h2
          cases i with
          | zero => exact ⟨f, hg⟩
          | succ j =>
            have hj1 : j < rest.length := by simpa using h1
            have hj2 : j < ss'.length := by simpa using h2
            exact hidx j hj1 hj2

/-- C7: for a multi-child container whose descriptor carries `n`
widget-shaped child maps, the children resolver yields exactly `n`
rendered expressions, in input order, each the orchestrator's rendering
of the corresponding child; and the default multi-child template embeds
those `n` expressions in the same order (auto-escaped, before the final
unescape pass restores them). -/
theorem claim_C7_container_children (fuel : Nat) (sch : Schema) (cs : List Value)
    (ss : List String)
    (hdicts : ∀ c ∈ cs, ∃ kvs, c = Value.dict kvs)
    (hok : processChildren (fuel + 1) sch (.list cs) = .ok ss) :
    ss.length = cs.length ∧
    (∀ i (h1 : i < cs.length) (h2 : i < ss.length),
      ∃ f, generateWidget f sch (cs.get ⟨i, h1⟩) = .ok (ss.get ⟨i, h2⟩)) ∧
    (ss ≠ [] → ∀ wname props,
      containsInOrderL (renderDefaultMulti wname props ss).data
        (ss.map (fun c => (htmlEscape c).data))) := by
  cases cs with
  | nil =>
    have hss : ss = [] := by
      have : (Except.ok [] : Except PyErr (List String)) = .ok ss := hok.symm ▸ rfl
      simpa [processChildren, pyTruthy] using hok.symm
    subst hss
    refine ⟨rfl, ?_, ?_⟩
    · intro i h1 _
      cases h1
    · intro hne
      exact absurd rfl hne
  | cons c rest =>
    obtain ⟨kvs, hc⟩ := hdicts c (by simp)
    subst hc
    have hred : processChildren (fuel + 1) sch (.list (Value.dict kvs :: rest)) =
        childrenAux fuel sch (Value.dict kvs :: rest) := rfl
    rw [hred] at hok
    obtain ⟨hlen, hidx⟩ := childrenAux_spec sch (Value.dict kvs :: rest) fuel ss hdicts hok
    exact ⟨hlen, hidx, fun hne wname props => renderDefaultMulti_contains wname props ss hne⟩

/-- Witness for C7 with two text children. -/
theorem claim_C7_container_children_witness :
    processChildren 10 [textWT] (.list [descA, descB]) = .ok ["Text('A')", "Text('B')"] ∧
    (["Text('A')", "Text('B')"] : List String).length = 2 ∧
    containsInOrderL (renderDefaultMulti "Row" [] ["Text('A')", "Text('B')"]).data
      (List.map (fun c => (htmlEscape c).data) ["Text('A')", "Text('B')"]) := by
  have hd : ∀ c ∈ ([descA, descB] : List Value), ∃ kvs, c = Value.dict kvs := by
    intro c hc
    rcases List.mem_cons.mp hc with h1 | h2
    · exact ⟨_, h1⟩
    · rcases List.mem_cons.mp h2 with h3 | h4
      · exact ⟨_, h3⟩
      · cases h4
  have h := claim_C7_container_children 9 [textWT] [descA, descB] ["Text('A')", "Text('B')"]
    hd (by rfl)
  exact ⟨by rfl, h.1, h.2.2 (by simp) "Row" []⟩

theorem noneAt_of_not_word (p : Option Char) (hb : boundaryOk p = false)
    (cs : List Char) : noneAt p cs = false := by
  simp [noneAt, hb]

theorem noneAt_false_of_head (q : Option Char) (c : Char) (cs : List Char)
    (h : ¬ c = 'N') : noneAt q (c :: cs) = false := by
  simp [noneAt, List.take_succ_cons, h]

/-- When the left boundary already fails, the substitution scanner passes
the head character through unchanged. -/
theorem subNone_step (fuel : Nat) (p : Option Char) (cs : List Char)
    (hb : boundaryOk p = false) :
    subNoneAux fuel p cs =
      (match cs with
       | [] => []
       | c :: r => c :: subNoneAux (fuel - 1) (some c) r) := by
  match fuel, cs with
  | 0, [] => rfl
  | 0, c :: r => rfl
  | f + 1, [] => rfl
  | f + 1, c :: r =>
    show (if noneAt p (c :: r) then _ else _) = _
    rw [noneAt_of_not_word p hb]
    simp

theorem subNoneAux_nil (fuel : Nat) (p : Option Char) : subNoneAux fuel p [] = [] := by
  cases fuel <;> rfl

theorem subNone_step_cons (fuel : Nat) (p : Option Char) (c : Char) (r : List Char)
    (hb : boundaryOk p = false) :
    subNoneAux fuel p (c :: r) = c :: subNoneAux (fuel - 1) (some c) r := by
  have h := subNone_step fuel p (c :: r) hb
  simpa using h

theorem hasNone_step (q : Option Char) (c : Char) (out : List Char)
    (h : noneAt q (c :: out) = false) :
    hasNoneAux q (c :: out) = hasNoneAux (some c) out := by
  show (if noneAt q (c :: out) then true else hasNoneAux (some c) out) = _
  simp [h]

/-- C10 amended: the `\bNone\b → null` substitution of
`_validate_and_clean_output` removes every word-boundary occurrence of
`None`, including those inside user-supplied quoted literals: no such
occurrence remains in its output.  The standalone `None` the
counterexample exhibits is reintroduced only by the entity-decoding loop
that runs afterwards. -/
theorem claim_C10_none_amended (s : String) : hasNoneWord (subNoneWord s) = false := by
  have key : ∀ fuel (cs : List Char) (p q : Option Char),
      cs.length ≤ fuel →
      (boundaryOk q = true → boundaryOk p = true) →
      hasNoneAux q (subNoneAux fuel p cs) = false := by
    intro fuel
    induction fuel with
    | zero =>
      intro cs p q hlen _
      have hnil : cs = [] := List.eq_nil_of_length_eq_zero (Nat.le_zero.mp hlen)
      subst hnil
      rfl
    | succ f ih =>
      intro cs p q hlen hinv
      match cs with
      | [] => rfl
      | c :: rest =>
        by_cases hN : noneAt p (c :: rest) = true
        · have hout : subNoneAux (f + 1) p (c :: rest) =
              'n' :: 'u' :: 'l' :: 'l' :: subNoneAux f (some 'e') ((c :: rest).drop 4) := by
            show (if noneAt p (c :: rest) then _ else _) = _
            simp [hN]
          rw [hout]
          rw [hasNone_step q _ _ (noneAt_false_of_head _ _ _ (by decide))]
          rw [hasNone_step _ _ _ (noneAt_false_of_head _ _ _ (by decide))]
          rw [hasNone_step _ _ _ (noneAt_false_of_head _ _ _ (by decide))]
          rw [hasNone_step _ _ _ (noneAt_false_of_head _ _ _ (by decide))]
          apply ih
          · rw [List.length_drop]
            simp only [List.length_cons] at hlen ⊢
            omega
          · intro hq
            simp [boundaryOk, isWordChar] at hq
        · have hNfalse : noneAt p (c :: rest) = false := by
            simpa using hN
          have hout : subNoneAux (f + 1) p (c :: rest) =
              c :: subNoneAux f (some c) rest := by
            show (if noneAt p (c :: rest) then _ else _) = _
            simp [hNfalse]
          rw [hout]
          by_cases hQ : noneAt q (c :: subNoneAux f (some c) rest) = true
          · exfalso
            simp only [noneAt, Bool.and_eq_true, decide_eq_true_eq] at hQ
            obtain ⟨⟨htake, hbq⟩, hbdrop⟩ := hQ
            rw [List.take_succ_cons, List.cons.injEq] at htake
            obtain ⟨hcN, htake3⟩ := htake
            subst hcN
            have hbp : boundaryOk p = true := hinv hbq
            have hbN : boundaryOk (some 'N') = false := by decide
            -- unfold the output three characters deep
            rcases rest with _ | ⟨r0, r1⟩
            · rw [subNoneAux_nil] at htake3
              simp at htake3
            · rw [subNone_step_cons f (some 'N') r0 r1 hbN] at htake3 hbdrop
              rw [List.take_succ_cons, List.cons.injEq] at htake3
              obtain ⟨hr0, htake2⟩ := htake3
              subst hr0
              have hbo : boundaryOk (some 'o') = false := by decide
              rcases r1 with _ | ⟨s0, s1⟩
              · rw [subNoneAux_nil] at htake2
                simp at htake2
              · rw [subNone_step_cons (f - 1) (some 'o') s0 s1 hbo] at htake2 hbdrop
                rw [List.take_succ_cons, List.cons.injEq] at htake2
                obtain ⟨hs0, htake1⟩ := htake2
                subst hs0
                have hbn : boundaryOk (some 'n') = false := by decide
                rcases s1 with _ | ⟨t0, t1⟩
                · rw [subNoneAux_nil] at htake1
                  simp at htake1
                · rw [subNone_step_cons (f - 1 - 1) (some 'n') t0 t1 hbn] at htake1 hbdrop
                  rw [List.take_succ_cons, List.cons.injEq] at htake1
                  obtain ⟨ht0, _⟩ := htake1
                  subst ht0
                  -- the input did start with None; since it was not
                  -- replaced, its right boundary failed
                  have hNunfold : (decide (('N' :: 'o' :: 'n' :: 'e' :: t1).take 4 =
                      ['N', 'o', 'n', 'e']) && boundaryOk p &&
                      boundaryOk ((('N' :: 'o' :: 'n' :: 'e' :: t1).drop 4).head?)) = false :=
                    hNfalse
                  rw [hbp] at hNunfold
                  simp only [List.take_succ_cons, List.take_zero, decide_eq_true_eq,
                    List.drop_succ_cons, List.drop_zero, Bool.and_true, Bool.true_and,
                    List.cons.injEq, and_true, true_and] at hNunfold
                  have hbt1 : boundaryOk t1.head? = false := by
                    simpa using hNunfold
                  simp only [List.drop_succ_cons, List.drop_zero] at hbdrop
                  rcases t1 with _ | ⟨w, t2⟩
                  · simp [boundaryOk] at hbt1
                  · have hw : boundaryOk (some w) = false := hbt1
                    rw [subNone_step_cons (f - 1 - 1 - 1) (some 'e') w t2
                      (by decide)] at hbdrop
                    simp only [List.head?] at hbdrop
                    rw [hbdrop] at hw
                    cases hw
          · have hQfalse : noneAt q (c :: subNoneAux f (some c) rest) = false := by
              simpa using hQ
            rw [hasNone_step q _ _ hQfalse]
            apply ih _ _ _ (by simpa using Nat.le_of_succ_le_succ hlen)
            intro h
            exact h
  show hasNoneAux none (subNoneAux s.data.length none s.data) = false
  exact key s.data.length s.data none none (Nat.le_refl _) (fun h => h)



theorem requiredWarns_dict_ok (pkvs : List (String × Value)) (pds : List PropertyDef) :
    ∃ w, requiredWarns (.dict pkvs) pds = .ok w := by
  induction pds with
  | nil => exact ⟨[], rfl⟩
  | cons pd rest ih =>
    obtain ⟨w, hw⟩ := ih
    by_cases hm : (lookupVal pkvs pd.name).isSome = true
    · exact ⟨w, by simp [requiredWarns, requiredMember, bind, Except.bind, hw, hm, pure,
        Except.pure]⟩
    · exact ⟨("Required property '" ++ pd.name ++ "' is missing") :: w,
        by simp [requiredWarns, requiredMember, bind, Except.bind, hw, hm, pure, Except.pure]⟩

theorem valueErrors_nil (props : Value) : valueErrors props [] = .ok ([], false) := rfl

theorem valueErrors_cons_dict (pkvs : List (String × Value)) (pd : PropertyDef)
    (rest : List PropertyDef) :
    valueErrors (.dict pkvs) (pd :: rest) =
      (if (lookupVal pkvs pd.name).isSome then
        Except.bind (getHandler pd.property_type .noArgs) (fun handler =>
          Except.bind (valueErrors (.dict pkvs) rest) (fun p =>
            if !handlerValidate handler ((lookupVal pkvs pd.name).getD .null) then
              .ok (("Invalid value for property '" ++ pd.name ++ "': " ++
                pyStr ((lookupVal pkvs pd.name).getD .null)) :: p.1, true)
            else .ok p))
      else valueErrors (.dict pkvs) rest) := rfl

theorem valueErrors_dict_flag (pkvs : List (String × Value)) :
    ∀ (pds : List PropertyDef) (errs : List String) (b : Bool),
    valueErrors (.dict pkvs) pds = .ok (errs, b) →
    b = pds.any (presentInvalid pkvs) := by
  intro pds
  induction pds with
  | nil =>
    intro errs b hok
    rw [valueErrors_nil] at hok
    simp only [Except.ok.injEq, Prod.mk.injEq] at hok
    simp [hok.2.symm]
  | cons pd rest ih =>
    intro errs b hok
    rw [valueErrors_cons_dict] at hok
    by_cases hm : (lookupVal pkvs pd.name).isSome = true
    · obtain ⟨v0, hv0⟩ := Option.isSome_iff_exists.mp hm
      rw [if_pos hm] at hok
      rcases hh : getHandler pd.property_type HandlerArgs.noArgs with err | h
      · rw [hh] at hok
        simp [Except.bind] at hok
      · rw [hh] at hok
        simp only [Except.bind] at hok
        rcases hve : valueErrors (.dict pkvs) rest with err | p
        · rw [hve] at hok
          simp at hok
        · rw [hve] at hok
          obtain ⟨r2, b2⟩ := p
          simp only at hok
          by_cases hval : (!handlerValidate h ((lookupVal pkvs pd.name).getD .null)) = true
          · rw [if_pos hval] at hok
            simp only [Except.ok.injEq, Prod.mk.injEq] at hok
            rw [← hok.2]
            simp only [List.any_cons, presentInvalid, hv0, hh]
            have : (!handlerValidate h v0) = true := by simpa [hv0] using hval
            simp [this]
          · rw [if_neg hval] at hok
            simp only [Except.ok.injEq, Prod.mk.injEq] at hok
            rw [← hok.2]
            rw [ih r2 b2 hve]
            simp only [List.any_cons]
            have hpi : presentInvalid pkvs pd = false := by
              simp only [presentInvalid, hv0, hh]
              simpa [hv0] using hval
            rw [hpi]
            simp
    · have hnone : lookupVal pkvs pd.name = none :=
        Option.not_isSome_iff_eq_none.mp (by simpa using hm)
      rw [if_neg hm] at hok
      rw [ih errs b hok]
      simp [List.any_cons, presentInvalid, hnone]

/-- C9 amended: for a descriptor with a dict `properties` value on which
`validate_component` returns normally, the result is marked invalid
exactly when the `type` field is falsy or some declared property is
present with a value its handler rejects — a missing required property
never marks the result invalid (it only warns). -/
theorem claim_C9_validate_amended (sch : Schema) (kvs pkvs : List (String × Value)) (r : VResult)
    (hp : pyGetD kvs "properties" (.dict []) = .dict pkvs)
    (hok : validateComponent sch (.dict kvs) = .ok r) :
    (r.valid = false ↔
      pyTruthy (pyGetD kvs "type" .null) = false ∨
      ∃ s wt, pyGetD kvs "type" .null = .str s ∧ lookupAnyWidgetType sch s = some wt ∧
        wt.properties.any (presentInvalid pkvs) = true) := by
  simp only [validateComponent] at hok
  by_cases ht : pyTruthy (pyGetD kvs "type" .null) = true
  · rw [ht] at hok
    simp only [Bool.not_true, Bool.false_eq_true, if_false] at hok
    rcases htn : pyGetD kvs "type" .null with _ | b | n | s | xs | kvs2 <;>
      rw [htn] at hok ht
    · simp [pyTruthy] at ht
    · simp only [Except.ok.injEq] at hok
      subst hok
      simp [ht]
    · simp only [Except.ok.injEq] at hok
      subst hok
      simp [ht]
    · dsimp only at hok
      rcases hlk : lookupAnyWidgetType sch s with _ | wt
      · rw [hlk] at hok
        simp only [Except.ok.injEq] at hok
        subst hok
        simp [ht, hlk]
      · rw [hlk] at hok
        rw [hp] at hok
        simp only [bind, Except.bind, pure, Except.pure] at hok
        obtain ⟨w1, hw1⟩ :=
          requiredWarns_dict_ok pkvs (wt.properties.filter (fun q => q.is_required))
        rw [hw1] at hok
        rcases hve : valueErrors (.dict pkvs) wt.properties with err | p
        · rw [hve] at hok
          simp at hok
        · obtain ⟨errs, bflag⟩ := p
          rw [hve] at hok
          have hrv : r.valid = !bflag := by
            split at hok
            · split at hok
              · cases hok
                rfl
              · cases hok
                rfl
            · cases hok
              rfl
          have hb := valueErrors_dict_flag pkvs wt.properties errs bflag hve
          rw [hrv]
          simp only [ht, Bool.true_eq_false, false_or]
          constructor
          · intro hv
            refine ⟨s, wt, rfl, hlk, ?_⟩
            rw [← hb]
            simpa using hv
          · rintro ⟨s', wt', hs', hlk', hany⟩
            cases hs'
            rw [hlk] at hlk'
            cases hlk'
            rw [hb]
            simpa using hany
    · simp only [Except.ok.injEq] at hok
      subst hok
      simp [ht]
    · simp only [Except.ok.injEq] at hok
      subst hok
      simp [ht]
  · have ht' : pyTruthy (pyGetD kvs "type" .null) = false := by
      simpa using ht
    rw [ht'] at hok
    simp only [Bool.not_false, if_true] at hok
    simp only [Except.ok.injEq] at hok
    subst hok
    simp [ht']


/-- Witness for C9's amended claim: an invalid present value for `req`
(an int where a string is declared) marks the result invalid, and both
hypotheses hold by computation. -/
theorem claim_C9_validate_amended_witness :
    pyGetD [("type", Value.str "V"), ("properties", Value.dict [("req", Value.int 3)])]
      "properties" (.dict []) = .dict [("req", Value.int 3)] ∧
    validateComponent [vWT]
      (.dict [("type", .str "V"), ("properties", .dict [("req", .int 3)])]) =
      .ok ⟨false, ["Invalid value for property 'req': 3"], []⟩ ∧
    ((⟨false, ["Invalid value for property 'req': 3"], []⟩ : VResult).valid = false ↔
      pyTruthy (pyGetD [("type", Value.str "V"),
        ("properties", Value.dict [("req", Value.int 3)])] "type" .null) = false ∨
      ∃ s wt, pyGetD [("type", Value.str "V"),
          ("properties", Value.dict [("req", Value.int 3)])] "type" .null = .str s ∧
        lookupAnyWidgetType [vWT] s = some wt ∧
        wt.properties.any (presentInvalid [("req", Value.int 3)]) = true) := by
  refine ⟨rfl, rfl, ?_⟩
  exact claim_C9_validate_amended [vWT]
    [("type", Value.str "V"), ("properties", Value.dict [("req", Value.int 3)])]
    [("req", Value.int 3)] ⟨false, ["Invalid value for property 'req': 3"], []⟩ rfl rfl


theorem insertByPriority_eq (t : TemplateDef) (l : List TemplateDef) :
    insertByPriority t l = List.orderedInsert tPriorityGE t l := by
  induction l with
  | nil => rfl
  | cons u rest ih =>
    simp only [insertByPriority, List.orderedInsert]
    by_cases h : u.priority ≤ t.priority
    · rw [if_pos h, if_pos h]
    · rw [if_neg h, if_neg h, ih]

theorem sortByPriorityDesc_eq (ts : List TemplateDef) :
    sortByPriorityDesc ts = List.insertionSort tPriorityGE ts := by
  induction ts with
  | nil => rfl
  | cons t rest ih =>
    simp only [sortByPriorityDesc, List.foldr_cons, List.insertionSort] at ih ⊢
    rw [ih, insertByPriority_eq]

theorem find_first_max {α : Type} (r : α → α → Prop) (p : α → Bool) :
    ∀ (l : List α), l.Pairwise r → ∀ t, l.find? p = some t →
    ∀ u ∈ l, p u = true → r t u ∨ u = t := by
  intro l
  induction l with
  | nil =>
    intro _ t ht
    simp at ht
  | cons a rest ih =>
    intro hpw t ht u hu hpu
    rw [List.pairwise_cons] at hpw
    by_cases hpa : p a = true
    · rw [List.find?_cons_of_pos _ hpa] at ht
      cases ht
      rcases List.mem_cons.mp hu with h | h
      · exact Or.inr h
      · exact Or.inl (hpw.1 u h)
    · rw [List.find?_cons_of_neg _ (by simpa using hpa)] at ht
      rcases List.mem_cons.mp hu with h | h
      · subst h
        exact absurd hpu hpa
      · exact ih hpw.2 t ht u h hpu

/-- C6: template selection returns the body of a matching active template
of maximal priority when one exists, and the structurally-derived default
body otherwise — iteration order is active templates by descending
priority, conditions matched with dotted-path resolution, list membership
and scalar equality. -/
theorem claim_C6_template_selection (wt : WidgetType) (data : List (String × Value)) :
    TemplateSelected wt data (getTemplate wt data) := by
  haveI : IsTotal TemplateDef tPriorityGE := ⟨fun a b => le_total b.priority a.priority⟩
  haveI : IsTrans TemplateDef tPriorityGE := ⟨fun a b c hab hbc => le_trans hbc hab⟩
  have hperm : List.Perm
      (List.insertionSort tPriorityGE (wt.templates.filter (fun t => t.is_active)))
      (wt.templates.filter (fun t => t.is_active)) := List.perm_insertionSort tPriorityGE _
  have hsorted : List.Sorted tPriorityGE
      (List.insertionSort tPriorityGE (wt.templates.filter (fun t => t.is_active))) :=
    List.sorted_insertionSort tPriorityGE _
  rcases hfind : (sortByPriorityDesc (wt.templates.filter (fun t => t.is_active))).find?
      (fun t => matchesConditions t.conditions data) with _ | t
  · have hbody : getTemplate wt data = getDefaultTemplate wt := by
      unfold getTemplate
      rw [hfind]
    rw [hbody]
    right
    refine ⟨?_, rfl⟩
    intro t ht hact
    by_contra hmc
    have hmc' : matchesConditions t.conditions data = true := by
      simpa using hmc
    have ht' : t ∈ List.insertionSort tPriorityGE (wt.templates.filter (fun q => q.is_active)) :=
      hperm.mem_iff.mpr (List.mem_filter.mpr ⟨ht, by simpa using hact⟩)
    rw [sortByPriorityDesc_eq] at hfind
    exact absurd hmc' (by simpa using List.find?_eq_none.mp hfind t ht')
  · have hbody : getTemplate wt data = t.template_code := by
      unfold getTemplate
      rw [hfind]
    rw [hbody]
    left
    rw [sortByPriorityDesc_eq] at hfind
    have hmem : t ∈ List.insertionSort tPriorityGE (wt.templates.filter (fun q => q.is_active)) :=
      List.mem_of_find?_eq_some hfind
    have hmemF : t ∈ wt.templates.filter (fun q => q.is_active) := hperm.mem_iff.mp hmem
    have hmemT := List.mem_filter.mp hmemF
    have hp0 := List.find?_some hfind
    have hp : matchesConditions t.conditions data = true := by simpa using hp0
    refine ⟨t, hmemT.1, by simpa using hmemT.2, hp, rfl, ?_⟩
    intro u hu hact hmcu
    have hu' : u ∈ List.insertionSort tPriorityGE (wt.templates.filter (fun q => q.is_active)) :=
      hperm.mem_iff.mpr (List.mem_filter.mpr ⟨hu, by simpa using hact⟩)
    rcases find_first_max tPriorityGE _ _ hsorted t hfind u hu' hmcu with h | h
    · exact h
    · subst h
      exact le_refl _

end SFB
